import Mathlib

/-!
Verification of the phosphor backend (a Tauri application driving a
Proxmark3 RFID tool) against its natural-language specification.

The Rust sources are shallowly embedded:
* Rust `String` / `&str` values are modelled as `List Char` (`Str`);
* `HashMap<String, String>` is modelled as an association list with
  first-match lookup (a `HashMap` holds at most one binding per key);
* machine integers (`u16`/`u32`/`u64`) that are only stored and copied are
  modelled as `Nat`; where Rust parses into a bounded integer the bound is
  checked explicitly;
* `f32` values (write progress) are only ever constructed from literals and
  copied, never computed with, so they are modelled as rationals;
* `Result<T, AppError>` is modelled as `Except AppError T`;
* the one effect inside `WizardMachine::transition` (reading the current
  wall-clock time for the `Complete` timestamp) is modelled by passing the
  timestamp string as an extra argument `now`.
-/

/-- Rust strings are modelled as lists of characters. -/
abbrev Str := List Char

/-- Coerce a Lean string literal into the character-list model. -/
def str (s : String) : Str := s.data

/-! ## Data model (src-tauri/src/cards/types.rs) -/

/-- `Frequency` from cards/types.rs. -/
inductive Frequency
  | LF
  | HF
  deriving DecidableEq

/-- `CardType` from cards/types.rs: the closed enumeration of card protocols. -/
inductive CardType
  | EM4100
  | HIDProx
  | Indala
  | IOProx
  | AWID
  | FDX_B
  | Paradox
  | Viking
  | Pyramid
  | Keri
  | NexWatch
  | Presco
  | Nedap
  | GProxII
  | Gallagher
  | PAC
  | Noralsy
  | Jablotron
  | SecuraKey
  | Visa2000
  | Motorola
  | IDTECK
  | COTAG
  | EM4x50
  | Hitag
  | MifareClassic1K
  | MifareClassic4K
  | MifareUltralight
  | NTAG
  | DESFire
  | IClass
  deriving DecidableEq

/-- `BlankType` from cards/types.rs. -/
inductive BlankType
  | T5577
  | EM4305
  | MagicMifareGen1a
  | MagicMifareGen2
  | MagicMifareGen3
  | MagicMifareGen4GTU
  | MagicMifareGen4GDM
  | MagicUltralight
  | IClassBlank
  deriving DecidableEq

/-- `RecoveryAction` from cards/types.rs. -/
inductive RecoveryAction
  | Retry
  | GoBack
  | Reconnect
  | Manual
  deriving DecidableEq

/-- `ProcessPhase` from cards/types.rs. -/
inductive ProcessPhase
  | KeyCheck
  | Darkside
  | Nested
  | Hardnested
  | StaticNested
  | Dumping
  deriving DecidableEq

/-- `CardData` from cards/types.rs; `decoded` is the `HashMap<String, String>`
modelled as an association list in insertion order. -/
structure CardData where
  uid : Str
  raw : Str
  decoded : List (Str × Str)
  deriving DecidableEq

/-- `CardSummary` from cards/types.rs. -/
structure CardSummary where
  card_type : Str
  uid : Str
  display_name : Str
  deriving DecidableEq

/-- `AutopwnEvent` from cards/types.rs. -/
inductive AutopwnEvent
  | DictionaryProgress (found total : Nat)
  | KeyFound (key : Str)
  | DarksideStarted
  | NestedStarted
  | HardnestedStarted
  | StaticnestedStarted
  | DumpComplete (file_path : Str)
  | DumpPartial (file_path : Str)
  | Failed (reason : Str)
  | Finished (time_secs : Nat)
  deriving DecidableEq

/-- `AppError` from src-tauri/src/error.rs. -/
inductive AppError
  | DeviceNotFound
  | CommandFailed (msg : Str)
  | NoCardFound
  | WriteFailed (msg : Str)
  | DatabaseError (msg : Str)
  | InvalidTransition (msg : Str)
  | Timeout (msg : Str)
  deriving DecidableEq

/-! ## Wizard state machine (src-tauri/src/state.rs) -/

/-- `WizardState` from state.rs. -/
inductive WizardState
  | Idle
  | DetectingDevice
  | DeviceConnected (port model firmware : Str)
  | ScanningCard
  | CardIdentified (frequency : Frequency) (card_type : CardType)
      (card_data : CardData) (cloneable : Bool) (recommended_blank : BlankType)
  | HfProcessing (phase : ProcessPhase) (keys_found keys_total elapsed_secs : Nat)
  | HfDumpReady (dump_info : Str)
  | WaitingForBlank (expected_blank : BlankType)
  | BlankDetected (blank_type : BlankType) (ready_to_write : Bool)
      (existing_data_type : Option Str)
  | Writing (progress : ℚ) (current_block total_blocks : Option Nat)
  | Verifying
  | VerificationComplete (success : Bool) (mismatched_blocks : List Nat)
  | Complete (source target : CardSummary) (timestamp : Str)
  | Error (message user_message : Str) (recoverable : Bool)
      (recovery_action : Option RecoveryAction)
  deriving DecidableEq

/-- `WizardAction` from state.rs. -/
inductive WizardAction
  | StartDetection
  | DeviceFound (port model firmware : Str)
  | StartScan
  | CardFound (frequency : Frequency) (card_type : CardType)
      (card_data : CardData) (cloneable : Bool) (recommended_blank : BlankType)
  | StartHfProcess
  | UpdateHfProgress (phase : ProcessPhase) (keys_found keys_total elapsed_secs : Nat)
  | HfProcessComplete (dump_info : Str)
  | CancelHfProcess
  | ProceedToWrite (blank_type : BlankType)
  | BlankReady (blank_type : BlankType) (existing_data_type : Option Str)
  | StartWrite
  | UpdateWriteProgress (progress : ℚ) (current_block total_blocks : Option Nat)
  | WriteFinished
  | VerificationResult (success : Bool) (mismatched_blocks : List Nat)
  | MarkComplete (source target : CardSummary)
  | ReportError (message user_message : Str) (recoverable : Bool)
      (recovery_action : Option RecoveryAction)
  | Retry
  | Reset
  | BackToScan
  | SoftReset
  | Disconnect
  | ReDetectBlank
  | LoadSavedCard (frequency : Frequency) (card_type : CardType)
      (uid raw : Str) (decoded : List (Str × Str)) (cloneable : Bool)
      (recommended_blank : BlankType)
  deriving DecidableEq

/-- `state_name` from state.rs. -/
def state_name : WizardState → Str
  | .Idle => str "Idle"
  | .DetectingDevice => str "DetectingDevice"
  | .DeviceConnected _ _ _ => str "DeviceConnected"
  | .ScanningCard => str "ScanningCard"
  | .CardIdentified _ _ _ _ _ => str "CardIdentified"
  | .HfProcessing _ _ _ _ => str "HfProcessing"
  | .HfDumpReady _ => str "HfDumpReady"
  | .WaitingForBlank _ => str "WaitingForBlank"
  | .BlankDetected _ _ _ => str "BlankDetected"
  | .Writing _ _ _ => str "Writing"
  | .Verifying => str "Verifying"
  | .VerificationComplete _ _ => str "VerificationComplete"
  | .Complete _ _ _ => str "Complete"
  | .Error _ _ _ _ => str "Error"

/-- `action_name` from state.rs. -/
def action_name : WizardAction → Str
  | .StartDetection => str "StartDetection"
  | .DeviceFound _ _ _ => str "DeviceFound"
  | .StartScan => str "StartScan"
  | .CardFound _ _ _ _ _ => str "CardFound"
  | .StartHfProcess => str "StartHfProcess"
  | .UpdateHfProgress _ _ _ _ => str "UpdateHfProgress"
  | .HfProcessComplete _ => str "HfProcessComplete"
  | .CancelHfProcess => str "CancelHfProcess"
  | .ProceedToWrite _ => str "ProceedToWrite"
  | .BlankReady _ _ => str "BlankReady"
  | .StartWrite => str "StartWrite"
  | .UpdateWriteProgress _ _ _ => str "UpdateWriteProgress"
  | .WriteFinished => str "WriteFinished"
  | .VerificationResult _ _ => str "VerificationResult"
  | .MarkComplete _ _ => str "MarkComplete"
  | .ReportError _ _ _ _ => str "ReportError"
  | .Retry => str "Retry"
  | .Reset => str "Reset"
  | .BackToScan => str "BackToScan"
  | .SoftReset => str "SoftReset"
  | .Disconnect => str "Disconnect"
  | .ReDetectBlank => str "ReDetectBlank"
  | .LoadSavedCard _ _ _ _ _ _ _ => str "LoadSavedCard"

/-- `WizardMachine` from state.rs: current state plus the persistent session
context (`port`, `model`, `firmware`). -/
structure WizardMachine where
  current : WizardState
  port : Option Str
  model : Option Str
  firmware : Option Str
  deriving DecidableEq

/-- `WizardMachine::new()` from state.rs. -/
def wizardNew : WizardMachine := ⟨.Idle, none, none, none⟩

/-- `WizardMachine::transition` from state.rs.  The source mutates `self` and
returns `Ok(&self.current)`; here the whole machine after the call is
returned (on `Err` the source leaves `self` unchanged).  `now` stands for
`chrono::Local::now().to_rfc3339()`, the only effect in the source. -/
def transition (m : WizardMachine) (action : WizardAction) (now : Str) :
    Except AppError WizardMachine :=
  match action with
  | .Reset => .ok ⟨.Idle, none, none, none⟩
  | .Disconnect => .ok ⟨.Idle, none, none, none⟩
  | .ReportError message user_message recoverable recovery_action =>
      .ok ⟨.Error message user_message recoverable recovery_action,
        m.port, m.model, m.firmware⟩
  | a =>
    match m.current, a with
    | .Idle, .StartDetection =>
        .ok ⟨.DetectingDevice, m.port, m.model, m.firmware⟩
    | .DetectingDevice, .DeviceFound port model firmware =>
        .ok ⟨.DeviceConnected port model firmware,
          some port, some model, some firmware⟩
    | .DeviceConnected _ _ _, .StartScan =>
        .ok ⟨.ScanningCard, m.port, m.model, m.firmware⟩
    | .ScanningCard, .CardFound frequency card_type card_data cloneable recommended_blank =>
        .ok ⟨.CardIdentified frequency card_type card_data cloneable recommended_blank,
          m.port, m.model, m.firmware⟩
    | .CardIdentified _ _ _ _ _, .StartHfProcess =>
        .ok ⟨.HfProcessing .KeyCheck 0 0 0, m.port, m.model, m.firmware⟩
    | .HfProcessing _ _ _ _, .UpdateHfProgress phase keys_found keys_total elapsed_secs =>
        .ok ⟨.HfProcessing phase keys_found keys_total elapsed_secs,
          m.port, m.model, m.firmware⟩
    | .HfProcessing _ _ _ _, .HfProcessComplete dump_info =>
        .ok ⟨.HfDumpReady dump_info, m.port, m.model, m.firmware⟩
    | .HfProcessing _ _ _ _, .CancelHfProcess =>
        match m.port, m.model, m.firmware with
        | some p, some mo, some f =>
            .ok ⟨.DeviceConnected p mo f, m.port, m.model, m.firmware⟩
        | _, _, _ =>
            .error (.InvalidTransition
              (str "CancelHfProcess requires persistent device info"))
    | .HfDumpReady _, .ProceedToWrite blank_type =>
        .ok ⟨.WaitingForBlank blank_type, m.port, m.model, m.firmware⟩
    | .HfDumpReady _, .BackToScan =>
        match m.port, m.model, m.firmware with
        | some p, some mo, some f =>
            .ok ⟨.DeviceConnected p mo f, m.port, m.model, m.firmware⟩
        | _, _, _ =>
            .error (.InvalidTransition
              (str "BackToScan requires persistent device info"))
    | .CardIdentified _ _ _ _ _, .ProceedToWrite blank_type =>
        .ok ⟨.WaitingForBlank blank_type, m.port, m.model, m.firmware⟩
    | .WaitingForBlank _, .BlankReady blank_type existing_data_type =>
        .ok ⟨.BlankDetected blank_type true existing_data_type,
          m.port, m.model, m.firmware⟩
    | .BlankDetected blank_type _ _, .ReDetectBlank =>
        .ok ⟨.WaitingForBlank blank_type, m.port, m.model, m.firmware⟩
    | .BlankDetected _ _ _, .StartWrite =>
        .ok ⟨.Writing 0 none none, m.port, m.model, m.firmware⟩
    | .Writing _ _ _, .UpdateWriteProgress progress current_block total_blocks =>
        .ok ⟨.Writing progress current_block total_blocks,
          m.port, m.model, m.firmware⟩
    | .Writing _ _ _, .WriteFinished =>
        .ok ⟨.Verifying, m.port, m.model, m.firmware⟩
    | .Verifying, .VerificationResult success mismatched_blocks =>
        .ok ⟨.VerificationComplete success mismatched_blocks,
          m.port, m.model, m.firmware⟩
    | .VerificationComplete true _, .MarkComplete source target =>
        .ok ⟨.Complete source target now, m.port, m.model, m.firmware⟩
    | .Error _ _ true _, .Retry =>
        .ok ⟨.Idle, m.port, m.model, m.firmware⟩
    | .Complete _ _ _, .StartDetection =>
        .ok ⟨.DetectingDevice, m.port, m.model, m.firmware⟩
    | .CardIdentified _ _ _ _ _, .BackToScan
    | .WaitingForBlank _, .BackToScan
    | .HfProcessing _ _ _ _, .BackToScan =>
        match m.port, m.model, m.firmware with
        | some p, some mo, some f =>
            .ok ⟨.DeviceConnected p mo f, m.port, m.model, m.firmware⟩
        | _, _, _ =>
            .error (.InvalidTransition
              (str "BackToScan requires persistent device info"))
    | .Complete _ _ _, .SoftReset
    | .Error _ _ _ _, .SoftReset =>
        match m.port, m.model, m.firmware with
        | some p, some mo, some f =>
            .ok ⟨.DeviceConnected p mo f, m.port, m.model, m.firmware⟩
        | _, _, _ =>
            .error (.InvalidTransition
              (str "SoftReset requires persistent device info"))
    | .DeviceConnected _ _ _,
        .LoadSavedCard frequency card_type uid raw decoded cloneable recommended_blank =>
        .ok ⟨.CardIdentified frequency card_type ⟨uid, raw, decoded⟩
          cloneable recommended_blank, m.port, m.model, m.firmware⟩
    | s, a2 =>
        .error (.InvalidTransition
          (action_name a2 ++ str " is not valid from " ++ state_name s))

/-! ## Reachability and state-machine invariants -/

/-- Machines reachable from `WizardMachine::new()` by any sequence of
`transition` calls that succeed (a failed call leaves the machine unchanged,
so only successful calls move it). -/
inductive Reachable : WizardMachine → Prop
  | init : Reachable wizardNew
  | step {m m' : WizardMachine} {a : WizardAction} {now : Str} :
      Reachable m → transition m a now = .ok m' → Reachable m'

/-- The eleven state kinds of claim C10: every state from `DeviceConnected`
onwards in the forward workflow. -/
def needsDevice : WizardState → Bool
  | .DeviceConnected _ _ _ => true
  | .ScanningCard => true
  | .CardIdentified _ _ _ _ _ => true
  | .HfProcessing _ _ _ _ => true
  | .HfDumpReady _ => true
  | .WaitingForBlank _ => true
  | .BlankDetected _ _ _ => true
  | .Writing _ _ _ => true
  | .Verifying => true
  | .VerificationComplete _ _ => true
  | .Complete _ _ _ => true
  | _ => false

/-- Combined machine invariant: in every state past device discovery the
session context is populated, and every `BlankDetected` state carries
`ready_to_write = true`. -/
def StateInv (m : WizardMachine) : Prop :=
  (needsDevice m.current = true →
    m.port.isSome ∧ m.model.isSome ∧ m.firmware.isSome)
  ∧ (∀ bt r e, m.current = .BlankDetected bt r e → r = true)

set_option maxHeartbeats 1600000 in
theorem transition_stateInv {m m' : WizardMachine} {a : WizardAction}
    {now : Str} (h : transition m a now = .ok m') (hm : StateInv m) :
    StateInv m' := by
  obtain ⟨cur, port, model, fw⟩ := m
  obtain ⟨hd, hb⟩ := hm
  cases a <;> cases cur <;> simp only [transition] at h
  case CancelHfProcess.HfProcessing _ _ _ _ =>
    clear hd hb; split at h; all_goals cases h
    all_goals simp_all [StateInv, needsDevice]
  case BackToScan.CardIdentified _ _ _ _ _ =>
    clear hd hb; split at h; all_goals cases h
    all_goals simp_all [StateInv, needsDevice]
  case BackToScan.WaitingForBlank _ =>
    clear hd hb; split at h; all_goals cases h
    all_goals simp_all [StateInv, needsDevice]
  case BackToScan.HfProcessing _ _ _ _ =>
    clear hd hb; split at h; all_goals cases h
    all_goals simp_all [StateInv, needsDevice]
  case BackToScan.HfDumpReady _ =>
    clear hd hb; split at h; all_goals cases h
    all_goals simp_all [StateInv, needsDevice]
  case SoftReset.Complete _ _ _ =>
    clear hd hb; split at h; all_goals cases h
    all_goals simp_all [StateInv, needsDevice]
  case SoftReset.Error _ _ _ _ =>
    clear hd hb; split at h; all_goals cases h
    all_goals simp_all [StateInv, needsDevice]
  case MarkComplete.VerificationComplete _ _ succ _ =>
    cases succ
    all_goals cases h
    all_goals simp_all [StateInv, needsDevice]
  case Retry.Error _ _ rec _ =>
    cases rec
    all_goals cases h
    all_goals simp_all [StateInv, needsDevice]
  all_goals cases h
  all_goals simp_all [StateInv, needsDevice]

theorem reachable_stateInv {m : WizardMachine} (h : Reachable m) :
    StateInv m := by
  induction h with
  | init => exact ⟨by simp [wizardNew, needsDevice], by simp [wizardNew]⟩
  | step _ heq ih => exact transition_stateInv heq ih

/-! ## Claim theorems for the wizard machine -/

/-- C1: for every machine state and `CardSummary` payloads,
`transition (MarkComplete source target)` succeeds and moves to `Complete`
exactly when the current state is `VerificationComplete` with
`success = true`; from `VerificationComplete` with `success = false` and from
every other state it is rejected with an `InvalidTransition` error. -/
theorem markComplete_gate (m : WizardMachine) (source target : CardSummary)
    (now : Str) :
    (∀ mb, m.current = .VerificationComplete true mb →
      transition m (.MarkComplete source target) now =
        .ok ⟨.Complete source target now, m.port, m.model, m.firmware⟩)
    ∧ ((∀ mb, m.current ≠ .VerificationComplete true mb) →
      ∃ msg, transition m (.MarkComplete source target) now =
        .error (.InvalidTransition msg))
    ∧ (∀ mb, m.current = .VerificationComplete false mb →
      ∃ msg, transition m (.MarkComplete source target) now =
        .error (.InvalidTransition msg)) := by
  obtain ⟨cur, port, model, fw⟩ := m
  refine ⟨?_, ?_, ?_⟩
  · intro mb h
    cases cur <;> cases h
    rfl
  · intro hne
    cases cur
    case VerificationComplete succ blocks =>
      cases succ
      · exact ⟨_, rfl⟩
      · exact absurd rfl (hne blocks)
    case Error msg umsg rcv ract => cases rcv <;> exact ⟨_, rfl⟩
    all_goals exact ⟨_, rfl⟩
  · intro mb h
    cases cur <;> cases h
    exact ⟨_, rfl⟩

/-- Witness for C1: a concrete successful promotion and a concrete rejection
of an unsuccessful verification. -/
theorem markComplete_gate_witness :
    transition ⟨.VerificationComplete true [], some (str "COM3"),
        some (str "pm3"), some (str "v4")⟩
      (.MarkComplete ⟨str "EM4100", str "AA", str "EM4100"⟩
        ⟨str "T5577", str "AA", str "T5577"⟩) (str "2026-01-01") =
      .ok ⟨.Complete ⟨str "EM4100", str "AA", str "EM4100"⟩
          ⟨str "T5577", str "AA", str "T5577"⟩ (str "2026-01-01"),
        some (str "COM3"), some (str "pm3"), some (str "v4")⟩
    ∧ ∃ msg,
      transition ⟨.VerificationComplete false [], none, none, none⟩
        (.MarkComplete ⟨str "EM4100", str "AA", str "EM4100"⟩
          ⟨str "T5577", str "AA", str "T5577"⟩) (str "2026-01-01") =
        .error (.InvalidTransition msg) := by
  constructor
  · exact (markComplete_gate _ _ _ _).1 [] rfl
  · exact (markComplete_gate _ _ _ _).2.2 [] rfl

/-- C3: `Reset`, `Disconnect` and `ReportError` succeed from every state
(including `Error` itself): `Reset` and `Disconnect` go to `Idle` and clear
the session context, and `ReportError` goes to an `Error` state carrying
exactly the four payload fields. -/
theorem escape_actions_always_succeed (m : WizardMachine)
    (now message user_message : Str) (recoverable : Bool)
    (recovery_action : Option RecoveryAction) :
    transition m .Reset now = .ok ⟨.Idle, none, none, none⟩
    ∧ transition m .Disconnect now = .ok ⟨.Idle, none, none, none⟩
    ∧ transition m (.ReportError message user_message recoverable
        recovery_action) now =
      .ok ⟨.Error message user_message recoverable recovery_action,
        m.port, m.model, m.firmware⟩ :=
  ⟨rfl, rfl, rfl⟩

/-- C2 counterexample: the `StartWrite` arm of `transition` does not examine
the `ready_to_write` flag, so from a `BlankDetected` state with
`ready_to_write = false` the action succeeds and moves to `Writing`, while
the claim requires it to be rejected with an `InvalidTransition` error. -/
theorem startWrite_ready_flag_counterexample :
    transition ⟨.BlankDetected .T5577 false none, some (str "COM3"),
        some (str "pm3"), some (str "v4")⟩ .StartWrite (str "") =
      .ok ⟨.Writing 0 none none, some (str "COM3"), some (str "pm3"),
        some (str "v4")⟩ := rfl

/-- C2 (amended): `StartWrite` succeeds, moving to `Writing` with
`progress = 0`, exactly when the current state is `BlankDetected` — the
`ready_to_write` flag is not examined — and is rejected with an
`InvalidTransition` error from every other state; moreover on every machine
reachable from `WizardMachine::new()` a `BlankDetected` state always has
`ready_to_write = true` (its only constructor, the `BlankReady` arm, sets
the flag), so the claimed guard holds on all reachable states. -/
theorem startWrite_gate_amended (m : WizardMachine) (now : Str) :
    (∀ bt r e, m.current = .BlankDetected bt r e →
      transition m .StartWrite now =
        .ok ⟨.Writing 0 none none, m.port, m.model, m.firmware⟩)
    ∧ ((∀ bt r e, m.current ≠ .BlankDetected bt r e) →
      ∃ msg, transition m .StartWrite now = .error (.InvalidTransition msg))
    ∧ (Reachable m → ∀ bt r e, m.current = .BlankDetected bt r e →
        r = true) := by
  refine ⟨?_, ?_, fun hr bt r e hcur => (reachable_stateInv hr).2 bt r e hcur⟩
  · intro bt r e h
    obtain ⟨cur, port, model, fw⟩ := m
    cases cur <;> cases h
    rfl
  · intro hne
    obtain ⟨cur, port, model, fw⟩ := m
    cases cur
    case BlankDetected bt r e => exact absurd rfl (hne bt r e)
    case Error msg umsg rcv ract => cases rcv <;> exact ⟨_, rfl⟩
    case VerificationComplete succ mb => cases succ <;> exact ⟨_, rfl⟩
    all_goals exact ⟨_, rfl⟩

/-- Witness for the amended C2: a concrete acceptance from `BlankDetected`,
a concrete rejection from `Idle`, and a concrete reachable `BlankDetected`
machine on which the flag is forced to `true`. -/
theorem startWrite_gate_amended_witness :
    transition ⟨.BlankDetected .T5577 true none, some (str "COM3"),
        some (str "pm3"), some (str "v4")⟩ .StartWrite (str "") =
      .ok ⟨.Writing 0 none none, some (str "COM3"), some (str "pm3"),
        some (str "v4")⟩
    ∧ (∃ msg, transition ⟨.Idle, none, none, none⟩ .StartWrite (str "") =
        .error (.InvalidTransition msg))
    ∧ true = true := by
  refine ⟨(startWrite_gate_amended _ _).1 .T5577 true none rfl,
    (startWrite_gate_amended _ _).2.1 (by intro bt r e h; cases h), ?_⟩
  have h1 : Reachable (⟨.DetectingDevice, none, none, none⟩ : WizardMachine) :=
    @Reachable.step wizardNew ⟨.DetectingDevice, none, none, none⟩
      .StartDetection (str "") .init rfl
  have h2 : Reachable (⟨.DeviceConnected (str "COM3") (str "pm3") (str "v4"),
      some (str "COM3"), some (str "pm3"), some (str "v4")⟩ : WizardMachine) :=
    @Reachable.step _ _ (.DeviceFound (str "COM3") (str "pm3") (str "v4"))
      (str "") h1 rfl
  have h3 : Reachable (⟨.ScanningCard, some (str "COM3"), some (str "pm3"),
      some (str "v4")⟩ : WizardMachine) :=
    @Reachable.step _ _ .StartScan (str "") h2 rfl
  have h4 : Reachable (⟨.CardIdentified .LF .EM4100 ⟨str "AA", str "AA", []⟩
      true .T5577, some (str "COM3"), some (str "pm3"),
      some (str "v4")⟩ : WizardMachine) :=
    @Reachable.step _ _ (.CardFound .LF .EM4100 ⟨str "AA", str "AA", []⟩
      true .T5577) (str "") h3 rfl
  have h5 : Reachable (⟨.WaitingForBlank .T5577, some (str "COM3"),
      some (str "pm3"), some (str "v4")⟩ : WizardMachine) :=
    @Reachable.step _ _ (.ProceedToWrite .T5577) (str "") h4 rfl
  have h6 : Reachable (⟨.BlankDetected .T5577 true none, some (str "COM3"),
      some (str "pm3"), some (str "v4")⟩ : WizardMachine) :=
    @Reachable.step _ _ (.BlankReady .T5577 none) (str "") h5 rfl
  exact (startWrite_gate_amended _ (str "")).2.2 h6 .T5577 true none rfl

/-- C10: on every machine reachable from `WizardMachine::new()`, whenever the
current state is one of the eleven post-discovery states the session context
fields `port`, `model` and `firmware` are all `Some`; consequently
`CancelHfProcess`, `BackToScan` (from the four states that accept it) and
`SoftReset` from `Complete` always succeed and never hit their
"requires persistent device info" error branch. -/
theorem reachable_session_context (m : WizardMachine) (h : Reachable m) :
    (needsDevice m.current = true →
      m.port.isSome ∧ m.model.isSome ∧ m.firmware.isSome)
    ∧ (∀ now phase kf kt es, m.current = .HfProcessing phase kf kt es →
        ∃ m2, transition m .CancelHfProcess now = .ok m2)
    ∧ (∀ now, ((∃ fr ct cd cl rb, m.current = .CardIdentified fr ct cd cl rb)
        ∨ (∃ b, m.current = .WaitingForBlank b)
        ∨ (∃ phase kf kt es, m.current = .HfProcessing phase kf kt es)
        ∨ (∃ d, m.current = .HfDumpReady d)) →
        ∃ m2, transition m .BackToScan now = .ok m2)
    ∧ (∀ now src tgt ts, m.current = .Complete src tgt ts →
        ∃ m2, transition m .SoftReset now = .ok m2) := by
  have hs := reachable_stateInv h
  obtain ⟨cur, port, model, fw⟩ := m
  obtain ⟨hd, hb⟩ := hs
  refine ⟨hd, ?_, ?_, ?_⟩
  · intro now phase kf kt es hcur
    cases hcur
    obtain ⟨hp, hm2, hf⟩ := hd rfl
    rcases Option.isSome_iff_exists.mp hp with ⟨p, rfl⟩
    rcases Option.isSome_iff_exists.mp hm2 with ⟨mo, rfl⟩
    rcases Option.isSome_iff_exists.mp hf with ⟨fx, rfl⟩
    exact ⟨_, rfl⟩
  · intro now hdisj
    rcases hdisj with ⟨fr, ct, cd, cl, rb, rfl⟩ | ⟨b, rfl⟩ |
      ⟨p1, p2, p3, p4, rfl⟩ | ⟨d, rfl⟩ <;>
      · obtain ⟨hp, hm2, hf⟩ := hd rfl
        rcases Option.isSome_iff_exists.mp hp with ⟨p, rfl⟩
        rcases Option.isSome_iff_exists.mp hm2 with ⟨mo, rfl⟩
        rcases Option.isSome_iff_exists.mp hf with ⟨fx, rfl⟩
        exact ⟨_, rfl⟩
  · intro now src tgt ts hcur
    cases hcur
    obtain ⟨hp, hm2, hf⟩ := hd rfl
    rcases Option.isSome_iff_exists.mp hp with ⟨p, rfl⟩
    rcases Option.isSome_iff_exists.mp hm2 with ⟨mo, rfl⟩
    rcases Option.isSome_iff_exists.mp hf with ⟨fx, rfl⟩
    exact ⟨_, rfl⟩

/-- Witness for C10: a concrete reachable `DeviceConnected` machine has its
session context populated, and a concrete reachable `HfProcessing` machine
accepts `CancelHfProcess`. -/
theorem reachable_session_context_witness :
    ((⟨.DeviceConnected (str "COM3") (str "pm3") (str "v4"), some (str "COM3"),
        some (str "pm3"), some (str "v4")⟩ : WizardMachine).port.isSome
      ∧ (⟨.DeviceConnected (str "COM3") (str "pm3") (str "v4"),
        some (str "COM3"), some (str "pm3"),
        some (str "v4")⟩ : WizardMachine).model.isSome
      ∧ (⟨.DeviceConnected (str "COM3") (str "pm3") (str "v4"),
        some (str "COM3"), some (str "pm3"),
        some (str "v4")⟩ : WizardMachine).firmware.isSome)
    ∧ ∃ m2, transition ⟨.HfProcessing .KeyCheck 0 0 0, some (str "COM3"),
        some (str "pm3"), some (str "v4")⟩ .CancelHfProcess (str "") =
      .ok m2 := by
  have h1 : Reachable (⟨.DetectingDevice, none, none, none⟩ : WizardMachine) :=
    @Reachable.step wizardNew ⟨.DetectingDevice, none, none, none⟩
      .StartDetection (str "") .init rfl
  have h2 : Reachable (⟨.DeviceConnected (str "COM3") (str "pm3") (str "v4"),
      some (str "COM3"), some (str "pm3"), some (str "v4")⟩ : WizardMachine) :=
    @Reachable.step _ _ (.DeviceFound (str "COM3") (str "pm3") (str "v4"))
      (str "") h1 rfl
  have h3 : Reachable (⟨.ScanningCard, some (str "COM3"), some (str "pm3"),
      some (str "v4")⟩ : WizardMachine) :=
    @Reachable.step _ _ .StartScan (str "") h2 rfl
  have h4 : Reachable (⟨.CardIdentified .HF .MifareClassic1K
      ⟨str "AA", str "AA", []⟩ true .MagicMifareGen1a, some (str "COM3"),
      some (str "pm3"), some (str "v4")⟩ : WizardMachine) :=
    @Reachable.step _ _ (.CardFound .HF .MifareClassic1K
      ⟨str "AA", str "AA", []⟩ true .MagicMifareGen1a) (str "") h3 rfl
  have h5 : Reachable (⟨.HfProcessing .KeyCheck 0 0 0, some (str "COM3"),
      some (str "pm3"), some (str "v4")⟩ : WizardMachine) :=
    @Reachable.step _ _ .StartHfProcess (str "") h4 rfl
  exact ⟨(reachable_session_context _ h2).1 rfl,
    (reachable_session_context _ h5).2.1 (str "") .KeyCheck 0 0 0 rfl⟩

/-! ## ANSI stripping (src-tauri/src/pm3/output_parser.rs) -/

/-- The parameter class `[0-9;]` of the `ANSI_RE` pattern. -/
def isAnsiParam (c : Char) : Bool := c.isDigit || c = ';'

/-- The final-byte class `[mGKHJ]` of the `ANSI_RE` pattern. -/
def isAnsiFinal (c : Char) : Bool :=
  c = 'm' || c = 'G' || c = 'K' || c = 'H' || c = 'J'

/-- Consume `[0-9;]*[mGKHJ]` at the head of the list, returning the suffix
after the final byte.  The parameter and final classes are disjoint, so the
greedy `[0-9;]*` of the source regex is deterministic here. -/
def skipAnsiParams : Str → Option Str
  | [] => none
  | c :: rest =>
    if isAnsiParam c then skipAnsiParams rest
    else if isAnsiFinal c then some rest else none

/-- Match the `ANSI_RE` pattern `ESC [ [0-9;]* [mGKHJ]` at the head of the
list, returning the suffix after the match. -/
def matchAnsi : Str → Option Str
  | c1 :: c2 :: rest =>
    if c1 = '\x1b' && c2 = '[' then skipAnsiParams rest else none
  | _ => none

/-- Scanning loop of `Regex::replace_all` with the empty replacement: on a
failed match attempt the scan advances one character, on a successful match
it resumes after the match.  The fuel argument only bounds the recursion
depth; one unit per character of the remaining input always suffices, since
a successful match consumes at least three characters. -/
def stripAnsiGo : Nat → Str → Str
  | 0, l => l
  | _ + 1, [] => []
  | fuel + 1, c :: rest =>
    match matchAnsi (c :: rest) with
    | some rest2 => stripAnsiGo fuel rest2
    | none => c :: stripAnsiGo fuel rest

/-- `strip_ansi` from output_parser.rs: `ANSI_RE.replace_all(input, "")`,
which deletes every non-overlapping leftmost match of
`ESC \[ [0-9;]* [mGKHJ]`. -/
def strip_ansi (l : Str) : Str := stripAnsiGo l.length l

theorem stripAnsiGo_no_esc (n : Nat) :
    ∀ l : Str, '\x1b' ∉ l → stripAnsiGo n l = l := by
  induction n with
  | zero => intro l _; rfl
  | succ n ih =>
    intro l h
    cases l with
    | nil => rfl
    | cons c rest =>
      have hc : c ≠ '\x1b' := fun e => h (by simp [e])
      have hm : matchAnsi (c :: rest) = none := by
        cases rest with
        | nil => rfl
        | cons c2 rest2 => simp [matchAnsi, hc]
      simp only [stripAnsiGo, hm]
      rw [ih rest (fun e => h (by simp [e]))]

theorem strip_ansi_no_esc (l : Str) (h : '\x1b' ∉ l) : strip_ansi l = l :=
  stripAnsiGo_no_esc l.length l h

/-- C4 counterexample: `strip_ansi` is not idempotent.  On the input
`ESC [ ESC [ 0 m 0 m` the first pass deletes only the inner escape sequence
and glues the remaining pieces into `ESC [ 0 m`, which a second pass deletes
entirely. -/
theorem strip_ansi_not_idempotent :
    strip_ansi (strip_ansi (str "\x1b[\x1b[0m0m")) ≠
      strip_ansi (str "\x1b[\x1b[0m0m") := by decide

/-- C4 (amended): `strip_ansi` is idempotent on every input whose stripped
form contains no remaining ESC character; a second pass can only differ from
the first when deleting a match glues a new `ESC [` prefix together, which
leaves an ESC in the output of the first pass. -/
theorem strip_ansi_idempotent_of_no_esc (x : Str)
    (h : '\x1b' ∉ strip_ansi x) :
    strip_ansi (strip_ansi x) = strip_ansi x :=
  strip_ansi_no_esc _ h

/-- Witness for the amended C4 on a concrete input containing one escape
sequence. -/
theorem strip_ansi_idempotent_of_no_esc_witness :
    '\x1b' ∉ strip_ansi (str "a\x1b[31mb")
    ∧ strip_ansi (strip_ansi (str "a\x1b[31mb")) =
        strip_ansi (str "a\x1b[31mb") :=
  ⟨by decide, strip_ansi_idempotent_of_no_esc _ (by decide)⟩

/-! ## Command builder (src-tauri/src/pm3/command_builder.rs) -/

/-- The character class of `HEX_RE`: `[0-9A-Fa-f]`. -/
def isHexChar (c : Char) : Bool :=
  c.isDigit || ('A' ≤ c && c ≤ 'F') || ('a' ≤ c && c ≤ 'f')

/-- The character class of `HEX_COLON_RE`: `[0-9A-Za-z:]`. -/
def isHexColonChar (c : Char) : Bool := c.isAlphanum || c = ':'

/-- `HEX_RE.is_match`: the anchored pattern `^[0-9A-Fa-f]+$`. -/
def hexMatch (s : Str) : Bool := !s.isEmpty && s.all isHexChar

/-- `HEX_COLON_RE.is_match`: the anchored pattern `^[0-9A-Za-z:]+$`. -/
def hexColonMatch (s : Str) : Bool := !s.isEmpty && s.all isHexColonChar

/-- `validate_hex(value, _).is_ok()` from command_builder.rs: non-empty and
matching `HEX_RE`. -/
def validate_hex_ok (value : Str) : Bool := !value.isEmpty && hexMatch value

/-- `validate_hid_format` from command_builder.rs: membership in
`VALID_HID_FORMATS`. -/
def validate_hid_format (format : Str) : Bool :=
  format = str "H10301" || format = str "H10302" ||
    format = str "H10304" || format = str "Corp1000"

/-- Accumulate a digit string (already checked) into a number. -/
def parseDigits (l : Str) : Nat :=
  l.foldl (fun a c => a * 10 + (c.toNat - 48)) 0

/-- Rust `str::parse::<uN>()` for an unsigned integer type with exclusive
upper bound `bound`: an optional leading `+`, then one or more ASCII digits,
rejecting overflow. -/
def parseUInt (bound : Nat) (s : Str) : Option Nat :=
  let digits := match s with
    | '+' :: rest => rest
    | _ => s
  if digits.isEmpty then none
  else if digits.all Char.isDigit then
    if parseDigits digits < bound then some (parseDigits digits) else none
  else none

/-- `parse::<u32>()`. -/
def parseU32 : Str → Option Nat := parseUInt (2 ^ 32)

/-- `parse::<u64>()`. -/
def parseU64 : Str → Option Nat := parseUInt (2 ^ 64)

/-- Decimal printing loop for `format!`; one unit of fuel per digit, and
`n + 1` units always suffice. -/
def natDigitsGo : Nat → Nat → Str
  | 0, _ => []
  | fuel + 1, n =>
    if n < 10 then [Char.ofNat (48 + n)]
    else natDigitsGo fuel (n / 10) ++ [Char.ofNat (48 + n % 10)]

/-- `format!("{}", n)` for an unsigned integer: decimal digits, no sign. -/
def natDigits (n : Nat) : Str := natDigitsGo (n + 1) n

/-- `HashMap::get` on the association-list model of `decoded`. -/
def mapGet (m : List (Str × Str)) (k : Str) : Option Str :=
  (m.find? (fun p => p.1 == k)).map (fun p => p.2)

/-- `build_em4100_clone` from command_builder.rs. -/
def build_em4100_clone (id : Str) : Str := str "lf em 410x clone --id " ++ id

/-- `build_hid_clone` from command_builder.rs. -/
def build_hid_clone (fc cn : Nat) (format : Option Str) : Str :=
  str "lf hid clone -w " ++ format.getD (str "H10301") ++ str " --fc " ++
    natDigits fc ++ str " --cn " ++ natDigits cn

/-- `build_hid_clone_raw` from command_builder.rs. -/
def build_hid_clone_raw (raw : Str) : Str := str "lf hid clone -r " ++ raw

/-- `build_indala_clone` from command_builder.rs. -/
def build_indala_clone (raw : Str) : Str := str "lf indala clone --raw " ++ raw

/-- `build_ioprox_clone` from command_builder.rs. -/
def build_ioprox_clone (fc cn vn : Nat) : Str :=
  str "lf io clone --vn " ++ natDigits vn ++ str " --fc " ++ natDigits fc ++
    str " --cn " ++ natDigits cn

/-- `build_ioprox_clone_raw` from command_builder.rs. -/
def build_ioprox_clone_raw (raw : Str) : Str := str "lf io clone --raw " ++ raw

/-- `build_awid_clone` from command_builder.rs. -/
def build_awid_clone (fc cn : Nat) (fmt : Option Nat) : Str :=
  match fmt with
  | some f => str "lf awid clone --fmt " ++ natDigits f ++ str " --fc " ++
      natDigits fc ++ str " --cn " ++ natDigits cn
  | none => str "lf awid clone --fc " ++ natDigits fc ++ str " --cn " ++
      natDigits cn

/-- `build_fdxb_clone` from command_builder.rs. -/
def build_fdxb_clone (country national_id : Nat) : Str :=
  str "lf fdxb clone --country " ++ natDigits country ++ str " --national " ++
    natDigits national_id

/-- `build_fdxb_clone_raw` from command_builder.rs. -/
def build_fdxb_clone_raw (raw : Str) : Str := str "lf fdxb clone --raw " ++ raw

/-- `build_paradox_clone` from command_builder.rs. -/
def build_paradox_clone (fc cn : Nat) : Str :=
  str "lf paradox clone --fc " ++ natDigits fc ++ str " --cn " ++ natDigits cn

/-- `build_paradox_clone_raw` from command_builder.rs. -/
def build_paradox_clone_raw (raw : Str) : Str :=
  str "lf paradox clone --raw " ++ raw

/-- `build_viking_clone` from command_builder.rs. -/
def build_viking_clone (cn : Str) : Str := str "lf viking clone --cn " ++ cn

/-- `build_pyramid_clone` from command_builder.rs. -/
def build_pyramid_clone (fc cn : Nat) : Str :=
  str "lf pyramid clone --fc " ++ natDigits fc ++ str " --cn " ++ natDigits cn

/-- `build_pyramid_clone_raw` from command_builder.rs. -/
def build_pyramid_clone_raw (raw : Str) : Str :=
  str "lf pyramid clone --raw " ++ raw

/-- `build_keri_clone` from command_builder.rs. -/
def build_keri_clone (cn : Str) (fc keri_type : Option Str) : Str :=
  match keri_type, fc with
  | some t, some fcv =>
    if t = str "m" then
      str "lf keri clone -t m --fc " ++ fcv ++ str " --cn " ++ cn
    else str "lf keri clone -t " ++ t ++ str " --cn " ++ cn
  | some t, none => str "lf keri clone -t " ++ t ++ str " --cn " ++ cn
  | none, _ => str "lf keri clone --cn " ++ cn

/-- `build_nexwatch_clone` from command_builder.rs. -/
def build_nexwatch_clone (raw : Str) : Str :=
  str "lf nexwatch clone --raw " ++ raw

/-- `build_presco_clone_hex` from command_builder.rs. -/
def build_presco_clone_hex (hex : Str) : Str := str "lf presco clone -d " ++ hex

/-- `build_presco_clone` from command_builder.rs. -/
def build_presco_clone (site_code user_code : Nat) : Str :=
  str "lf presco clone --sitecode " ++ natDigits site_code ++
    str " --usercode " ++ natDigits user_code

/-- `build_nedap_clone` from command_builder.rs. -/
def build_nedap_clone (subtype customer_code id : Nat) : Str :=
  str "lf nedap clone --st " ++ natDigits subtype ++ str " --cc " ++
    natDigits customer_code ++ str " --id " ++ natDigits id

/-- `build_gproxii_clone` from command_builder.rs. -/
def build_gproxii_clone (xorv fmt fc cn : Nat) : Str :=
  str "lf gproxii clone --xor " ++ natDigits xorv ++ str " --fmt " ++
    natDigits fmt ++ str " --fc " ++ natDigits fc ++ str " --cn " ++
    natDigits cn

/-- `build_gallagher_clone` from command_builder.rs. -/
def build_gallagher_clone (rc fc cn il : Nat) : Str :=
  str "lf gallagher clone --rc " ++ natDigits rc ++ str " --fc " ++
    natDigits fc ++ str " --cn " ++ natDigits cn ++ str " --il " ++
    natDigits il

/-- `build_pac_clone` from command_builder.rs. -/
def build_pac_clone (cn : Str) : Str := str "lf pac clone --cn " ++ cn

/-- `build_pac_clone_raw` from command_builder.rs. -/
def build_pac_clone_raw (raw : Str) : Str := str "lf pac clone --raw " ++ raw

/-- `build_noralsy_clone` from command_builder.rs. -/
def build_noralsy_clone (cn : Str) (year : Option Str) : Str :=
  match year with
  | some y => str "lf noralsy clone --cn " ++ cn ++ str " -y " ++ y
  | none => str "lf noralsy clone --cn " ++ cn

/-- `build_jablotron_clone` from command_builder.rs. -/
def build_jablotron_clone (cn : Str) : Str :=
  str "lf jablotron clone --cn " ++ cn

/-- `build_securakey_clone` from command_builder.rs. -/
def build_securakey_clone (raw : Str) : Str :=
  str "lf securakey clone --raw " ++ raw

/-- `build_visa2000_clone` from command_builder.rs. -/
def build_visa2000_clone (cn : Nat) : Str :=
  str "lf visa2000 clone --cn " ++ natDigits cn

/-- `build_motorola_clone` from command_builder.rs. -/
def build_motorola_clone (raw : Str) : Str :=
  str "lf motorola clone --raw " ++ raw

/-- `build_idteck_clone` from command_builder.rs. -/
def build_idteck_clone (raw : Str) : Str := str "lf idteck clone --raw " ++ raw

/-- The per-card-type `match` of `build_clone_command` from
command_builder.rs (split out of the wrapper so that each card type gets its
own definitional equation). -/
def build_clone_dispatch (card_type : CardType) (uid : Str)
    (decoded : List (Str × Str)) : Option Str :=
  match card_type with
    | .EM4100 => some (build_em4100_clone uid)
    | .HIDProx =>
      match (mapGet decoded (str "raw")).filter validate_hex_ok with
      | some raw => some (build_hid_clone_raw raw)
      | none =>
        match mapGet decoded (str "facility_code"),
            mapGet decoded (str "card_number") with
        | some fc, some cn =>
          match parseU32 fc, parseU32 cn with
          | some fc_n, some cn_n =>
            some (build_hid_clone fc_n cn_n
              ((mapGet decoded (str "format")).filter validate_hid_format))
          | _, _ => none
        | _, _ => none
    | .Indala =>
      some (build_indala_clone ((mapGet decoded (str "raw")).getD uid))
    | .IOProx =>
      match mapGet decoded (str "facility_code"),
          mapGet decoded (str "card_number") with
      | some fc, some cn =>
        match parseU32 fc, parseU32 cn with
        | some fc_n, some cn_n =>
          some (build_ioprox_clone fc_n cn_n
            (((mapGet decoded (str "version")).bind parseU32).getD 0))
        | _, _ => some (build_ioprox_clone_raw uid)
      | _, _ => some (build_ioprox_clone_raw uid)
    | .AWID =>
      match mapGet decoded (str "facility_code"),
          mapGet decoded (str "card_number") with
      | some fc, some cn =>
        match parseU32 fc, parseU32 cn with
        | some fc_n, some cn_n =>
          some (build_awid_clone fc_n cn_n
            ((mapGet decoded (str "format")).bind parseU32))
        | _, _ => none
      | _, _ => none
    | .FDX_B =>
      match mapGet decoded (str "country"),
          mapGet decoded (str "national_id") with
      | some country, some national =>
        match parseU32 country, parseU64 national with
        | some cc, some nid => some (build_fdxb_clone cc nid)
        | _, _ =>
          match (mapGet decoded (str "raw")).filter validate_hex_ok with
          | some raw => some (build_fdxb_clone_raw raw)
          | none => some (build_fdxb_clone_raw uid)
      | _, _ =>
        match (mapGet decoded (str "raw")).filter validate_hex_ok with
        | some raw => some (build_fdxb_clone_raw raw)
        | none => some (build_fdxb_clone_raw uid)
    | .Paradox =>
      match mapGet decoded (str "facility_code"),
          mapGet decoded (str "card_number") with
      | some fc, some cn =>
        match parseU32 fc, parseU32 cn with
        | some fc_n, some cn_n => some (build_paradox_clone fc_n cn_n)
        | _, _ => some (build_paradox_clone_raw uid)
      | _, _ => some (build_paradox_clone_raw uid)
    | .Viking => some (build_viking_clone uid)
    | .Pyramid =>
      match mapGet decoded (str "facility_code"),
          mapGet decoded (str "card_number") with
      | some fc, some cn =>
        match parseU32 fc, parseU32 cn with
        | some fc_n, some cn_n => some (build_pyramid_clone fc_n cn_n)
        | _, _ =>
          ((mapGet decoded (str "raw")).filter validate_hex_ok).map
            build_pyramid_clone_raw
      | _, _ =>
        ((mapGet decoded (str "raw")).filter validate_hex_ok).map
          build_pyramid_clone_raw
    | .Keri =>
      some (build_keri_clone ((mapGet decoded (str "card_number")).getD uid)
        (mapGet decoded (str "facility_code"))
        ((mapGet decoded (str "keri_type")).filter
          (fun t => t = str "i" || t = str "m")))
    | .NexWatch => some (build_nexwatch_clone uid)
    | .Presco =>
      match mapGet decoded (str "site_code"),
          mapGet decoded (str "user_code") with
      | some sc, some uc =>
        match parseU32 sc, parseU32 uc with
        | some sc_n, some uc_n => some (build_presco_clone sc_n uc_n)
        | _, _ => some (build_presco_clone_hex uid)
      | _, _ => some (build_presco_clone_hex uid)
    | .Nedap =>
      match mapGet decoded (str "subtype"),
          mapGet decoded (str "customer_code"),
          mapGet decoded (str "card_number") with
      | some st, some cc, some id =>
        match parseU32 st, parseU32 cc, parseU32 id with
        | some st_n, some cc_n, some id_n =>
          some (build_nedap_clone st_n cc_n id_n)
        | _, _, _ => none
      | _, _, _ => none
    | .GProxII =>
      match mapGet decoded (str "facility_code"),
          mapGet decoded (str "card_number") with
      | some fc, some cn =>
        match parseU32 fc, parseU32 cn with
        | some fc_n, some cn_n =>
          some (build_gproxii_clone
            (((mapGet decoded (str "xor")).bind parseU32).getD 0)
            (((mapGet decoded (str "format")).bind parseU32).getD 26)
            fc_n cn_n)
        | _, _ => none
      | _, _ => none
    | .Gallagher =>
      match mapGet decoded (str "region_code"),
          mapGet decoded (str "facility_code"),
          mapGet decoded (str "card_number"),
          mapGet decoded (str "issue_level") with
      | some rc, some fc, some cn, some il =>
        match parseU32 rc, parseU32 fc, parseU32 cn, parseU32 il with
        | some rc_n, some fc_n, some cn_n, some il_n =>
          some (build_gallagher_clone rc_n fc_n cn_n il_n)
        | _, _, _, _ => none
      | _, _, _, _ => none
    | .PAC =>
      match (mapGet decoded (str "raw")).filter validate_hex_ok with
      | some raw => some (build_pac_clone_raw raw)
      | none =>
        match mapGet decoded (str "card_number") with
        | some cn => some (build_pac_clone cn)
        | none => some (build_pac_clone uid)
    | .Noralsy =>
      some (build_noralsy_clone ((mapGet decoded (str "card_number")).getD uid)
        (mapGet decoded (str "year")))
    | .Jablotron =>
      match mapGet decoded (str "card_number") with
      | some cn =>
        if validate_hex_ok cn then some (build_jablotron_clone cn)
        else some (build_jablotron_clone uid)
      | none => some (build_jablotron_clone uid)
    | .SecuraKey =>
      match (mapGet decoded (str "raw")).filter validate_hex_ok with
      | some raw => some (build_securakey_clone raw)
      | none => some (build_securakey_clone uid)
    | .Visa2000 =>
      match (mapGet decoded (str "card_number")).bind parseU32 with
      | some cn_n => some (build_visa2000_clone cn_n)
      | none => none
    | .Motorola =>
      match (mapGet decoded (str "raw")).filter validate_hex_ok with
      | some raw => some (build_motorola_clone raw)
      | none => some (build_motorola_clone uid)
    | .IDTECK =>
      match (mapGet decoded (str "raw")).filter validate_hex_ok with
      | some raw => some (build_idteck_clone raw)
      | none => some (build_idteck_clone uid)
    | .COTAG => none
    | .EM4x50 => none
    | .Hitag => none
    | .MifareClassic1K => none
    | .MifareClassic4K => none
    | .MifareUltralight => none
    | .NTAG => none
    | .DESFire => none
    | .IClass => none

/-- `build_clone_command` from command_builder.rs: validate the uid against
`HEX_COLON_RE` (early return `None`), then dispatch on the card type. -/
def build_clone_command (card_type : CardType) (uid : Str)
    (decoded : List (Str × Str)) : Option Str :=
  if !hexColonMatch uid then none
  else build_clone_dispatch card_type uid decoded

/-- C5: for each card type whose clone command needs named fields and has no
raw-hex fallback (AWID, Nedap, GProxII, Gallagher, Visa2000),
`build_clone_command` returns `none` whenever a required field is absent
from the decoded map or fails to parse as a number, and returns exactly the
documented golden command string when all required fields are present and
numeric (for a uid that passes the mandatory hex-with-optional-colons
check; AWID with no `format` key, GProxII with no `xor`/`format` keys,
whose PM3 defaults are 0 and 26). -/
theorem build_clone_required_fields (uid : Str) (decoded : List (Str × Str)) :
    (((mapGet decoded (str "facility_code")).bind parseU32 = none ∨
      (mapGet decoded (str "card_number")).bind parseU32 = none) →
      build_clone_command .AWID uid decoded = none)
    ∧ (∀ fc cn fcn cnn, hexColonMatch uid = true →
      mapGet decoded (str "facility_code") = some fc → parseU32 fc = some fcn →
      mapGet decoded (str "card_number") = some cn → parseU32 cn = some cnn →
      mapGet decoded (str "format") = none →
      build_clone_command .AWID uid decoded =
        some (str "lf awid clone --fc " ++ natDigits fcn ++ str " --cn " ++
          natDigits cnn))
    ∧ (((mapGet decoded (str "subtype")).bind parseU32 = none ∨
      (mapGet decoded (str "customer_code")).bind parseU32 = none ∨
      (mapGet decoded (str "card_number")).bind parseU32 = none) →
      build_clone_command .Nedap uid decoded = none)
    ∧ (∀ st cc id stn ccn idn, hexColonMatch uid = true →
      mapGet decoded (str "subtype") = some st → parseU32 st = some stn →
      mapGet decoded (str "customer_code") = some cc → parseU32 cc = some ccn →
      mapGet decoded (str "card_number") = some id → parseU32 id = some idn →
      build_clone_command .Nedap uid decoded =
        some (str "lf nedap clone --st " ++ natDigits stn ++ str " --cc " ++
          natDigits ccn ++ str " --id " ++ natDigits idn))
    ∧ (((mapGet decoded (str "facility_code")).bind parseU32 = none ∨
      (mapGet decoded (str "card_number")).bind parseU32 = none) →
      build_clone_command .GProxII uid decoded = none)
    ∧ (∀ fc cn fcn cnn, hexColonMatch uid = true →
      mapGet decoded (str "facility_code") = some fc → parseU32 fc = some fcn →
      mapGet decoded (str "card_number") = some cn → parseU32 cn = some cnn →
      mapGet decoded (str "xor") = none → mapGet decoded (str "format") = none →
      build_clone_command .GProxII uid decoded =
        some (str "lf gproxii clone --xor 0 --fmt 26 --fc " ++ natDigits fcn ++
          str " --cn " ++ natDigits cnn))
    ∧ (((mapGet decoded (str "region_code")).bind parseU32 = none ∨
      (mapGet decoded (str "facility_code")).bind parseU32 = none ∨
      (mapGet decoded (str "card_number")).bind parseU32 = none ∨
      (mapGet decoded (str "issue_level")).bind parseU32 = none) →
      build_clone_command .Gallagher uid decoded = none)
    ∧ (∀ rc fc cn il rcn fcn cnn iln, hexColonMatch uid = true →
      mapGet decoded (str "region_code") = some rc → parseU32 rc = some rcn →
      mapGet decoded (str "facility_code") = some fc → parseU32 fc = some fcn →
      mapGet decoded (str "card_number") = some cn → parseU32 cn = some cnn →
      mapGet decoded (str "issue_level") = some il → parseU32 il = some iln →
      build_clone_command .Gallagher uid decoded =
        some (str "lf gallagher clone --rc " ++ natDigits rcn ++ str " --fc " ++
          natDigits fcn ++ str " --cn " ++ natDigits cnn ++ str " --il " ++
          natDigits iln))
    ∧ ((mapGet decoded (str "card_number")).bind parseU32 = none →
      build_clone_command .Visa2000 uid decoded = none)
    ∧ (∀ cn cnn, hexColonMatch uid = true →
      mapGet decoded (str "card_number") = some cn → parseU32 cn = some cnn →
      build_clone_command .Visa2000 uid decoded =
        some (str "lf visa2000 clone --cn " ++ natDigits cnn)) := by
  refine ⟨?_, ?_, ?_, ?_, ?_, ?_, ?_, ?_, ?_, ?_⟩
  · intro h
    rcases hfc : mapGet decoded (str "facility_code") with _ | fc <;>
    rcases hcn : mapGet decoded (str "card_number") with _ | cn <;>
    rcases hu : hexColonMatch uid <;>
      simp_all [build_clone_command, build_clone_dispatch]
    all_goals
      rcases h with h | h
      · simp [h]
      · rcases hp : parseU32 fc with _ | fcn <;> simp [hp, h]
  · intro fc cn fcn cnn hu hfc hfcn hcn hcnn hfmt
    simp [build_clone_command, build_clone_dispatch, hu, hfc, hcn, hfcn, hcnn, hfmt,
      build_awid_clone]
  · intro h
    rcases hst : mapGet decoded (str "subtype") with _ | st <;>
    rcases hcc : mapGet decoded (str "customer_code") with _ | cc <;>
    rcases hcn : mapGet decoded (str "card_number") with _ | cn <;>
    rcases hu : hexColonMatch uid <;>
      simp_all [build_clone_command, build_clone_dispatch]
    all_goals
      rcases h with h | h | h
      · simp [h]
      · rcases hp : parseU32 st with _ | stn <;> simp [hp, h]
      · rcases hp : parseU32 st with _ | stn <;>
        rcases hq : parseU32 cc with _ | ccn <;> simp [hp, hq, h]
  · intro st cc id stn ccn idn hu hst hstn hcc hccn hcn hidn
    simp [build_clone_command, build_clone_dispatch, hu, hst, hstn, hcc, hccn, hcn, hidn,
      build_nedap_clone]
  · intro h
    rcases hfc : mapGet decoded (str "facility_code") with _ | fc <;>
    rcases hcn : mapGet decoded (str "card_number") with _ | cn <;>
    rcases hu : hexColonMatch uid <;>
      simp_all [build_clone_command, build_clone_dispatch]
    all_goals
      rcases h with h | h
      · simp [h]
      · rcases hp : parseU32 fc with _ | fcn <;> simp [hp, h]
  · intro fc cn fcn cnn hu hfc hfcn hcn hcnn hxor hfmt
    have hg : str "lf gproxii clone --xor " ++ natDigits 0 ++ str " --fmt " ++
        natDigits 26 ++ str " --fc " =
        str "lf gproxii clone --xor 0 --fmt 26 --fc " := by decide
    simp [build_clone_command, build_clone_dispatch, hu, hfc, hcn, hfcn, hcnn, hxor, hfmt,
      build_gproxii_clone, ← hg]
  · intro h
    rcases hrc : mapGet decoded (str "region_code") with _ | rc <;>
    rcases hfc : mapGet decoded (str "facility_code") with _ | fc <;>
    rcases hcn : mapGet decoded (str "card_number") with _ | cn <;>
    rcases hil : mapGet decoded (str "issue_level") with _ | il <;>
    rcases hu : hexColonMatch uid <;>
      simp_all [build_clone_command, build_clone_dispatch]
    all_goals
      rcases h with h | h | h | h
      · simp [h]
      · rcases hp : parseU32 rc with _ | rcn <;> simp [hp, h]
      · rcases hp : parseU32 rc with _ | rcn <;>
        rcases hq : parseU32 fc with _ | fcn <;> simp [hp, hq, h]
      · rcases hp : parseU32 rc with _ | rcn <;>
        rcases hq : parseU32 fc with _ | fcn <;>
        rcases hr : parseU32 cn with _ | cnn <;> simp [hp, hq, hr, h]
  · intro rc fc cn il rcn fcn cnn iln hu hrc hrcn hfc hfcn hcn hcnn hil hiln
    simp [build_clone_command, build_clone_dispatch, hu, hrc, hrcn, hfc, hfcn, hcn, hcnn, hil, hiln,
      build_gallagher_clone]
  · intro h
    rcases hcn : mapGet decoded (str "card_number") with _ | cn <;>
    rcases hu : hexColonMatch uid <;>
      simp_all [build_clone_command, build_clone_dispatch]
  · intro cn cnn hu hcn hcnn
    simp [build_clone_command, build_clone_dispatch, hu, hcn, hcnn, build_visa2000_clone]

/-- Witness for C5: a concrete golden string for each of the five protocols
and a concrete missing-field rejection. -/
theorem build_clone_required_fields_witness :
    build_clone_command .AWID (str "AA")
      [(str "facility_code", str "13"), (str "card_number", str "1234")] =
      some (str "lf awid clone --fc 13 --cn 1234")
    ∧ build_clone_command .AWID (str "AA") [(str "card_number", str "1234")] =
      none
    ∧ build_clone_command .Nedap (str "AA")
      [(str "subtype", str "5"), (str "customer_code", str "0"),
        (str "card_number", str "777")] =
      some (str "lf nedap clone --st 5 --cc 0 --id 777")
    ∧ build_clone_command .GProxII (str "FC1:CN2")
      [(str "facility_code", str "1"), (str "card_number", str "2")] =
      some (str "lf gproxii clone --xor 0 --fmt 26 --fc 1 --cn 2")
    ∧ build_clone_command .Gallagher (str "AA")
      [(str "region_code", str "1"), (str "facility_code", str "2"),
        (str "card_number", str "3"), (str "issue_level", str "4")] =
      some (str "lf gallagher clone --rc 1 --fc 2 --cn 3 --il 4")
    ∧ build_clone_command .Visa2000 (str "AA")
      [(str "card_number", str "654321")] =
      some (str "lf visa2000 clone --cn 654321") := by
  refine ⟨?_, ?_, ?_, ?_, ?_, ?_⟩
  · rw [(build_clone_required_fields _ _).2.1 (str "13") (str "1234") 13 1234
      (by decide) (by decide) (by decide) (by decide) (by decide) (by decide)]
    decide
  · exact (build_clone_required_fields _ _).1 (Or.inl (by decide))
  · rw [(build_clone_required_fields _ _).2.2.2.1 (str "5") (str "0")
      (str "777") 5 0 777 (by decide) (by decide) (by decide) (by decide)
      (by decide) (by decide) (by decide)]
    decide
  · rw [(build_clone_required_fields _ _).2.2.2.2.2.1 (str "1") (str "2") 1 2
      (by decide) (by decide) (by decide) (by decide) (by decide) (by decide)
      (by decide)]
    decide
  · rw [(build_clone_required_fields _ _).2.2.2.2.2.2.2.1 (str "1") (str "2")
      (str "3") (str "4") 1 2 3 4 (by decide) (by decide) (by decide)
      (by decide) (by decide) (by decide) (by decide) (by decide) (by decide)]
    decide
  · rw [(build_clone_required_fields _ _).2.2.2.2.2.2.2.2.2 (str "654321")
      654321 (by decide) (by decide) (by decide)]
    decide

/-! ## Separator analysis for C6 -/

/-- The PM3 injection-vector characters of claim C6: the command separator
and line breaks. -/
def isSepChar (c : Char) : Bool := c = ';' || c = '\n' || c = '\r'

/-- `s.contains(';') || s.contains('\n') || s.contains('\r')` on a string. -/
def hasSep (s : Str) : Bool := s.any isSepChar

theorem hasSep_append (a b : Str) : hasSep (a ++ b) = (hasSep a || hasSep b) := by
  simp [hasSep, List.any_append]

theorem natDigitsGo_no_sep (fuel : Nat) :
    ∀ n : Nat, hasSep (natDigitsGo fuel n) = false := by
  induction fuel with
  | zero => intro n; rfl
  | succ fuel ih =>
    intro n
    rw [natDigitsGo]
    split
    · rename_i hn
      interval_cases n <;> decide
    · rw [hasSep_append, ih, Bool.false_or]
      have h10 : n % 10 < 10 := Nat.mod_lt _ (by omega)
      revert h10
      generalize n % 10 = m
      intro h10
      interval_cases m <;> decide

theorem hasSep_natDigits (n : Nat) : hasSep (natDigits n) = false :=
  natDigitsGo_no_sep _ _

theorem no_sep_of_all {p : Char → Bool}
    (hp : ∀ c, p c = true → isSepChar c = false) (s : Str)
    (hs : s.all p = true) : hasSep s = false := by
  rw [hasSep, List.any_eq_false]
  intro c hc
  simp [hp c (List.all_eq_true.mp hs c hc)]

theorem sep_not_hexColon (c : Char) (hc : isHexColonChar c = true) :
    isSepChar c = false := by
  cases h : isSepChar c
  · rfl
  · rw [isSepChar] at h
    rcases Bool.or_eq_true_iff.mp h with h2 | h2
    · rcases Bool.or_eq_true_iff.mp h2 with h3 | h3 <;>
        (simp only [decide_eq_true_eq] at h3; subst h3; exact absurd hc (by decide))
    · simp only [decide_eq_true_eq] at h2; subst h2; exact absurd hc (by decide)

theorem sep_not_hex (c : Char) (hc : isHexChar c = true) :
    isSepChar c = false := by
  cases h : isSepChar c
  · rfl
  · rw [isSepChar] at h
    rcases Bool.or_eq_true_iff.mp h with h2 | h2
    · rcases Bool.or_eq_true_iff.mp h2 with h3 | h3 <;>
        (simp only [decide_eq_true_eq] at h3; subst h3; exact absurd hc (by decide))
    · simp only [decide_eq_true_eq] at h2; subst h2; exact absurd hc (by decide)

theorem hasSep_of_hexColon (s : Str) (h : hexColonMatch s = true) :
    hasSep s = false :=
  no_sep_of_all sep_not_hexColon s (Bool.and_eq_true_iff.mp h).2

theorem hasSep_of_hex_ok (s : Str) (h : validate_hex_ok s = true) :
    hasSep s = false := by
  rcases Bool.and_eq_true_iff.mp h with ⟨-, h2⟩
  exact no_sep_of_all sep_not_hex s (Bool.and_eq_true_iff.mp h2).2

theorem mapGet_no_sep {decoded : List (Str × Str)} {k v : Str}
    (hv : ∀ kv ∈ decoded, hasSep kv.2 = false) (h : mapGet decoded k = some v) :
    hasSep v = false := by
  rw [mapGet] at h
  rcases hf : decoded.find? (fun p => p.1 == k) with _ | p
  · rw [hf] at h; cases h
  · rw [hf] at h
    cases h
    exact hv p (List.mem_of_find?_eq_some hf)

/-- C6 counterexample: the decoded `card_number` value of a Keri card is
interpolated into the clone command without validation, so a crafted map
value carries a `;` into the command string even though the uid passed the
hex-colon check. -/
theorem build_clone_keri_semicolon_counterexample :
    build_clone_command .Keri (str "AA") [(str "card_number", str "1;x")] =
      some (str "lf keri clone --cn 1;x")
    ∧ hasSep (str "lf keri clone --cn 1;x") = true := by
  exact ⟨by decide, by decide⟩

/-- C6 (amended): whenever `build_clone_command` returns `some cmd` the uid
matched the hex-with-optional-colons pattern, and `cmd` is free of `;`,
newline and carriage return provided every value of the decoded map is —
the values taken from the decoded map (Keri/Noralsy/PAC `card_number`,
Keri `facility_code`, Noralsy `year`, Indala `raw`, HID `format`) are
interpolated without validation, so the separator guarantee is conditional
on them, not unconditional as claimed. -/
theorem build_clone_separator_free (ct : CardType) (uid : Str)
    (decoded : List (Str × Str)) (cmd : Str)
    (h : build_clone_command ct uid decoded = some cmd) :
    hexColonMatch uid = true ∧
    ((∀ kv ∈ decoded, hasSep kv.2 = false) → hasSep cmd = false) := by
  cases hu : hexColonMatch uid
  · unfold build_clone_command at h
    rw [hu] at h
    simp at h
  · refine ⟨rfl, fun hv => ?_⟩
    have huid : hasSep uid = false := hasSep_of_hexColon uid hu
    unfold build_clone_command at h
    rw [hu] at h
    rw [if_neg (by simp)] at h
    cases ct <;> rw [build_clone_dispatch] at h
    case EM4100 =>
      simp at h
      subst h
      simp +decide [build_em4100_clone, hasSep_append, huid]
    case HIDProx =>
      rcases hr : mapGet decoded (str "raw") with _ | raw
      case some =>
        cases hval : validate_hex_ok raw
        case true =>
          simp [hr, Option.filter, hval] at h
          subst h
          simp +decide [build_hid_clone_raw, hasSep_append,
            mapGet_no_sep hv hr]
        case false =>
          rcases hfc : mapGet decoded (str "facility_code") with _ | fc <;>
            rcases hcn : mapGet decoded (str "card_number") with _ | cn <;>
            simp [hr, Option.filter, hval, hfc, hcn] at h
          rcases hp : parseU32 fc with _ | fcn <;>
            rcases hq : parseU32 cn with _ | cnn <;> simp [hp, hq] at h
          subst h
          rcases hfm : mapGet decoded (str "format") with _ | f
          · simp +decide [hfm, Option.filter, build_hid_clone, hasSep_append,
              hasSep_natDigits]
          · cases hvf : validate_hid_format f <;>
              simp +decide [hfm, Option.filter, hvf, build_hid_clone,
                hasSep_append, hasSep_natDigits, mapGet_no_sep hv hfm]
      case none =>
        rcases hfc : mapGet decoded (str "facility_code") with _ | fc <;>
          rcases hcn : mapGet decoded (str "card_number") with _ | cn <;>
          simp [hr, Option.filter, hfc, hcn] at h
        rcases hp : parseU32 fc with _ | fcn <;>
          rcases hq : parseU32 cn with _ | cnn <;> simp [hp, hq] at h
        subst h
        rcases hfm : mapGet decoded (str "format") with _ | f
        · simp +decide [hfm, Option.filter, build_hid_clone, hasSep_append,
            hasSep_natDigits]
        · cases hvf : validate_hid_format f <;>
            simp +decide [hfm, Option.filter, hvf, build_hid_clone,
              hasSep_append, hasSep_natDigits, mapGet_no_sep hv hfm]
    case Indala =>
      rcases hr : mapGet decoded (str "raw") with _ | raw <;>
        simp [hr] at h <;> subst h
      · simp +decide [build_indala_clone, hasSep_append, huid]
      · simp +decide [build_indala_clone, hasSep_append, mapGet_no_sep hv hr]
    case IOProx =>
      rcases hfc : mapGet decoded (str "facility_code") with _ | fc <;>
        rcases hcn : mapGet decoded (str "card_number") with _ | cn <;>
        simp [hfc, hcn] at h
      case none.none | none.some | some.none =>
        subst h
        simp +decide [build_ioprox_clone_raw, hasSep_append, huid]
      case some.some =>
        rcases hp : parseU32 fc with _ | fcn <;>
          rcases hq : parseU32 cn with _ | cnn <;> simp [hp, hq] at h <;>
          subst h <;>
          simp +decide [build_ioprox_clone, build_ioprox_clone_raw,
            hasSep_append, hasSep_natDigits, huid]
    case AWID =>
      rcases hfc : mapGet decoded (str "facility_code") with _ | fc <;>
        rcases hcn : mapGet decoded (str "card_number") with _ | cn <;>
        simp [hfc, hcn] at h
      rcases hp : parseU32 fc with _ | fcn <;>
        rcases hq : parseU32 cn with _ | cnn <;> simp [hp, hq] at h
      subst h
      rcases (mapGet decoded (str "format")).bind parseU32 with _ | fmtn <;>
        simp +decide [build_awid_clone, hasSep_append, hasSep_natDigits]
    case FDX_B =>
      have hfb : ∀ cmd2 : Str,
          (match (mapGet decoded (str "raw")).filter validate_hex_ok with
            | some raw => some (build_fdxb_clone_raw raw)
            | none => some (build_fdxb_clone_raw uid)) = some cmd2 →
          hasSep cmd2 = false := by
        intro cmd2 h2
        rcases hr : mapGet decoded (str "raw") with _ | raw
        · simp [hr, Option.filter] at h2
          subst h2
          simp +decide [build_fdxb_clone_raw, hasSep_append, huid]
        · cases hval : validate_hex_ok raw <;>
            simp [hr, Option.filter, hval] at h2 <;> subst h2
          · simp +decide [build_fdxb_clone_raw, hasSep_append, huid]
          · simp +decide [build_fdxb_clone_raw, hasSep_append,
              mapGet_no_sep hv hr]
      rcases hc : mapGet decoded (str "country") with _ | country <;>
        rcases hn : mapGet decoded (str "national_id") with _ | nat <;>
        simp only [hc, hn] at h
      case some.some =>
        rcases hp : parseU32 country with _ | cc <;>
          rcases hq : parseU64 nat with _ | nid <;> simp only [hp, hq] at h
        case some.some =>
          simp at h
          subst h
          simp +decide [build_fdxb_clone, hasSep_append, hasSep_natDigits]
        all_goals exact hfb _ (by simpa using h)
      all_goals exact hfb _ (by simpa using h)
    case Paradox =>
      rcases hfc : mapGet decoded (str "facility_code") with _ | fc <;>
        rcases hcn : mapGet decoded (str "card_number") with _ | cn <;>
        simp [hfc, hcn] at h
      case none.none | none.some | some.none =>
        subst h
        simp +decide [build_paradox_clone_raw, hasSep_append, huid]
      case some.some =>
        rcases hp : parseU32 fc with _ | fcn <;>
          rcases hq : parseU32 cn with _ | cnn <;> simp [hp, hq] at h <;>
          subst h <;>
          simp +decide [build_paradox_clone, build_paradox_clone_raw,
            hasSep_append, hasSep_natDigits, huid]
    case Viking =>
      simp at h
      subst h
      simp +decide [build_viking_clone, hasSep_append, huid]
    case Pyramid =>
      have hfb : ∀ cmd2 : Str,
          ((mapGet decoded (str "raw")).filter validate_hex_ok).map
            build_pyramid_clone_raw = some cmd2 →
          hasSep cmd2 = false := by
        intro cmd2 h2
        rcases hr : mapGet decoded (str "raw") with _ | raw
        · simp [hr, Option.filter] at h2
        · cases hval : validate_hex_ok raw <;>
            simp [hr, Option.filter, hval] at h2
          subst h2
          simp +decide [build_pyramid_clone_raw, hasSep_append,
            mapGet_no_sep hv hr]
      rcases hfc : mapGet decoded (str "facility_code") with _ | fc <;>
        rcases hcn : mapGet decoded (str "card_number") with _ | cn <;>
        simp only [hfc, hcn] at h
      case some.some =>
        rcases hp : parseU32 fc with _ | fcn <;>
          rcases hq : parseU32 cn with _ | cnn <;> simp only [hp, hq] at h
        case some.some =>
          simp at h
          subst h
          simp +decide [build_pyramid_clone, hasSep_append, hasSep_natDigits]
        all_goals exact hfb _ (by simpa using h)
      all_goals exact hfb _ (by simpa using h)
    case Keri =>
      have hcn2 : hasSep ((mapGet decoded (str "card_number")).getD uid) =
          false := by
        rcases hcn : mapGet decoded (str "card_number") with _ | cnv
        · simp [hcn, huid]
        · simp [hcn, mapGet_no_sep hv hcn]
      simp at h
      subst h
      rcases hk : mapGet decoded (str "keri_type") with _ | t
      · rcases hfc : mapGet decoded (str "facility_code") with _ | fcv <;>
          simp +decide [hk, hfc, Option.filter, build_keri_clone,
            hasSep_append, hcn2]
      · cases ht : (t = str "i" || t = str "m" : Bool)
        case false =>
          rcases hfc : mapGet decoded (str "facility_code") with _ | fcv <;>
            simp +decide [hk, hfc, ht, Option.filter, build_keri_clone,
              hasSep_append, hcn2]
        case true =>
          rcases Bool.or_eq_true_iff.mp ht with ht2 | ht2 <;>
            (simp only [decide_eq_true_eq] at ht2; subst ht2) <;>
            rcases hfc : mapGet decoded (str "facility_code") with _ | fcv <;>
            simp +decide [hk, hfc, Option.filter, build_keri_clone,
              hasSep_append, hcn2] <;>
            simp +decide [mapGet_no_sep hv hfc]
    case NexWatch =>
      simp at h
      subst h
      simp +decide [build_nexwatch_clone, hasSep_append, huid]
    case Presco =>
      rcases hsc : mapGet decoded (str "site_code") with _ | sc <;>
        rcases huc : mapGet decoded (str "user_code") with _ | uc <;>
        simp [hsc, huc] at h
      case none.none | none.some | some.none =>
        subst h
        simp +decide [build_presco_clone_hex, hasSep_append, huid]
      case some.some =>
        rcases hp : parseU32 sc with _ | scn <;>
          rcases hq : parseU32 uc with _ | ucn <;> simp [hp, hq] at h <;>
          subst h <;>
          simp +decide [build_presco_clone, build_presco_clone_hex,
            hasSep_append, hasSep_natDigits, huid]
    case Nedap =>
      rcases hst : mapGet decoded (str "subtype") with _ | st <;>
        rcases hcc : mapGet decoded (str "customer_code") with _ | cc <;>
        rcases hcn : mapGet decoded (str "card_number") with _ | cn <;>
        simp [hst, hcc, hcn] at h
      rcases hp : parseU32 st with _ | stn <;>
        rcases hq : parseU32 cc with _ | ccn <;>
        rcases hr2 : parseU32 cn with _ | cnn <;> simp [hp, hq, hr2] at h
      subst h
      simp +decide [build_nedap_clone, hasSep_append, hasSep_natDigits]
    case GProxII =>
      rcases hfc : mapGet decoded (str "facility_code") with _ | fc <;>
        rcases hcn : mapGet decoded (str "card_number") with _ | cn <;>
        simp [hfc, hcn] at h
      rcases hp : parseU32 fc with _ | fcn <;>
        rcases hq : parseU32 cn with _ | cnn <;> simp [hp, hq] at h
      subst h
      simp +decide [build_gproxii_clone, hasSep_append, hasSep_natDigits]
    case Gallagher =>
      rcases hrc : mapGet decoded (str "region_code") with _ | rc <;>
        rcases hfc : mapGet decoded (str "facility_code") with _ | fc <;>
        rcases hcn : mapGet decoded (str "card_number") with _ | cn <;>
        rcases hil : mapGet decoded (str "issue_level") with _ | il <;>
        simp [hrc, hfc, hcn, hil] at h
      rcases hp : parseU32 rc with _ | rcn <;>
        rcases hq : parseU32 fc with _ | fcn <;>
        rcases hr2 : parseU32 cn with _ | cnn <;>
        rcases hs2 : parseU32 il with _ | iln <;> simp [hp, hq, hr2, hs2] at h
      subst h
      simp +decide [build_gallagher_clone, hasSep_append, hasSep_natDigits]
    case PAC =>
      have hcn2 : ∀ cmd2 : Str,
          (match mapGet decoded (str "card_number") with
            | some cn => some (build_pac_clone cn)
            | none => some (build_pac_clone uid)) = some cmd2 →
          hasSep cmd2 = false := by
        intro cmd2 h2
        rcases hcn : mapGet decoded (str "card_number") with _ | cn <;>
          simp [hcn] at h2 <;> subst h2
        · simp +decide [build_pac_clone, hasSep_append, huid]
        · simp +decide [build_pac_clone, hasSep_append, mapGet_no_sep hv hcn]
      rcases hr : mapGet decoded (str "raw") with _ | raw
      · exact hcn2 _ (by simpa [hr, Option.filter] using h)
      · cases hval : validate_hex_ok raw
        case true =>
          simp [hr, Option.filter, hval] at h
          subst h
          simp +decide [build_pac_clone_raw, hasSep_append,
            mapGet_no_sep hv hr]
        case false =>
          exact hcn2 _ (by simpa [hr, Option.filter, hval] using h)
    case Noralsy =>
      have hcn2 : hasSep ((mapGet decoded (str "card_number")).getD uid) =
          false := by
        rcases hcn : mapGet decoded (str "card_number") with _ | cnv
        · simp [hcn, huid]
        · simp [hcn, mapGet_no_sep hv hcn]
      simp at h
      subst h
      rcases hy : mapGet decoded (str "year") with _ | y
      · simp +decide [hy, build_noralsy_clone, hasSep_append, hcn2]
      · simp +decide [hy, build_noralsy_clone, hasSep_append, hcn2,
          mapGet_no_sep hv hy]
    case Jablotron =>
      rcases hcn : mapGet decoded (str "card_number") with _ | cn
      · simp [hcn] at h
        subst h
        simp +decide [build_jablotron_clone, hasSep_append, huid]
      · cases hval : validate_hex_ok cn <;> simp [hcn, hval] at h <;> subst h
        · simp +decide [build_jablotron_clone, hasSep_append, huid]
        · simp +decide [build_jablotron_clone, hasSep_append,
            mapGet_no_sep hv hcn]
    case SecuraKey =>
      rcases hr : mapGet decoded (str "raw") with _ | raw
      · simp [hr, Option.filter] at h
        subst h
        simp +decide [build_securakey_clone, hasSep_append, huid]
      · cases hval : validate_hex_ok raw <;>
          simp [hr, Option.filter, hval] at h <;> subst h
        · simp +decide [build_securakey_clone, hasSep_append, huid]
        · simp +decide [build_securakey_clone, hasSep_append,
            mapGet_no_sep hv hr]
    case Visa2000 =>
      rcases hcn : (mapGet decoded (str "card_number")).bind parseU32
          with _ | cnn <;> simp [hcn] at h
      subst h
      simp +decide [build_visa2000_clone, hasSep_append, hasSep_natDigits]
    case Motorola =>
      rcases hr : mapGet decoded (str "raw") with _ | raw
      · simp [hr, Option.filter] at h
        subst h
        simp +decide [build_motorola_clone, hasSep_append, huid]
      · cases hval : validate_hex_ok raw <;>
          simp [hr, Option.filter, hval] at h <;> subst h
        · simp +decide [build_motorola_clone, hasSep_append, huid]
        · simp +decide [build_motorola_clone, hasSep_append,
            mapGet_no_sep hv hr]
    case IDTECK =>
      rcases hr : mapGet decoded (str "raw") with _ | raw
      · simp [hr, Option.filter] at h
        subst h
        simp +decide [build_idteck_clone, hasSep_append, huid]
      · cases hval : validate_hex_ok raw <;>
          simp [hr, Option.filter, hval] at h <;> subst h
        · simp +decide [build_idteck_clone, hasSep_append, huid]
        · simp +decide [build_idteck_clone, hasSep_append,
            mapGet_no_sep hv hr]
    all_goals simp at h

/-- Witness for the amended C6: a concrete `some` result whose uid passed the
pattern and whose command is separator-free. -/
theorem build_clone_separator_free_witness :
    hexColonMatch (str "0F00112233") = true
    ∧ hasSep (str "lf em 410x clone --id 0F00112233") = false := by
  have h := build_clone_separator_free .EM4100 (str "0F00112233")
    [(str "type", str "EM4100"), (str "id", str "0F00112233")]
    (str "lf em 410x clone --id 0F00112233") (by decide)
  exact ⟨h.1, h.2 (by decide)⟩

/-! ## Process-execution validation (src-tauri/src/pm3/connection.rs) -/

/-- Word characters for the `\w` class.  The source regex crate defaults to
Unicode word characters; the ASCII subset modelled here agrees with it on
every string these claims quantify over (the separator characters are not
word characters in either reading). -/
def isWordChar (c : Char) : Bool := c.isAlphanum || c = '_'

/-- Strip a literal prefix from a list, returning the remainder. -/
def dropLit : Str → Str → Option Str
  | [], l => some l
  | _ :: _, [] => none
  | p :: ps, c :: cs => if p = c then dropLit ps cs else none

/-- `PORT_RE.is_match`: the anchored pattern
`^(COM[1-9]\d*|/dev/tty(ACM|USB)\d{1,2}|/dev/tty\.usbmodem\w+)$` (with
`\d`/`\w` read as ASCII, see `isWordChar`). -/
def portMatches (s : Str) : Bool :=
  (match dropLit (str "COM") s with
    | some (d :: ds) => ('1' ≤ d && d ≤ '9') && ds.all Char.isDigit
    | _ => false)
  || (match dropLit (str "/dev/ttyACM") s with
    | some ds =>
      decide (1 ≤ ds.length) && decide (ds.length ≤ 2) && ds.all Char.isDigit
    | none => false)
  || (match dropLit (str "/dev/ttyUSB") s with
    | some ds =>
      decide (1 ≤ ds.length) && decide (ds.length ≤ 2) && ds.all Char.isDigit
    | none => false)
  || (match dropLit (str "/dev/tty.usbmodem") s with
    | some ws => !ws.isEmpty && ws.all isWordChar
    | none => false)

/-- The validation prelude of `execute_pm3` (connection.rs): the checks run
before any spawn attempt, in source order — port pattern, then command
separators, then port separators (`hasSep` models the three `contains`
calls).  `.ok ()` means control reaches the sidecar/spawn code. -/
def execute_pm3_guard (port cmd : Str) : Except AppError Unit :=
  if !portMatches port then
    .error (.CommandFailed (str "Invalid port: " ++ port))
  else if hasSep cmd then
    .error (.CommandFailed (str "Invalid characters in command"))
  else if hasSep port then
    .error (.CommandFailed (str "Invalid characters in command"))
  else .ok ()

/-- The validation prelude of `run_command_streaming` (connection.rs): port
pattern then command separators; `.ok ()` means control reaches the spawn
code. -/
def run_command_streaming_guard (port cmd : Str) : Except AppError Unit :=
  if !portMatches port then
    .error (.CommandFailed (str "Invalid port: " ++ port))
  else if hasSep cmd then
    .error (.CommandFailed (str "Invalid characters in command"))
  else .ok ()

theorem dropLit_append (p : Str) :
    ∀ s r, dropLit p s = some r → s = p ++ r := by
  induction p with
  | nil => intro s r h; cases h; rfl
  | cons c cs ih =>
    intro s r h
    cases s with
    | nil => cases h
    | cons c2 s2 =>
      rw [dropLit] at h
      split at h
      · rename_i he
        subst he
        rw [List.cons_append, ih s2 r h]
      · cases h

theorem dropLit_self (p : Str) : ∀ r, dropLit p (p ++ r) = some r := by
  induction p with
  | nil => intro r; rfl
  | cons c cs ih => intro r; simp [dropLit, ih]

theorem sep_not_digit (c : Char) (hc : c.isDigit = true) :
    isSepChar c = false := by
  cases h : isSepChar c
  · rfl
  · rw [isSepChar] at h
    rcases Bool.or_eq_true_iff.mp h with h2 | h2
    · rcases Bool.or_eq_true_iff.mp h2 with h3 | h3 <;>
        (simp only [decide_eq_true_eq] at h3; subst h3; exact absurd hc (by decide))
    · simp only [decide_eq_true_eq] at h2; subst h2; exact absurd hc (by decide)

theorem sep_not_word (c : Char) (hc : isWordChar c = true) :
    isSepChar c = false := by
  cases h : isSepChar c
  · rfl
  · rw [isSepChar] at h
    rcases Bool.or_eq_true_iff.mp h with h2 | h2
    · rcases Bool.or_eq_true_iff.mp h2 with h3 | h3 <;>
        (simp only [decide_eq_true_eq] at h3; subst h3; exact absurd hc (by decide))
    · simp only [decide_eq_true_eq] at h2; subst h2; exact absurd hc (by decide)

theorem portMatches_no_sep (s : Str) (h : portMatches s = true) :
    hasSep s = false := by
  rw [portMatches] at h
  rcases Bool.or_eq_true_iff.mp h with h1 | h1
  rcases Bool.or_eq_true_iff.mp h1 with h2 | h2
  rcases Bool.or_eq_true_iff.mp h2 with h3 | h3
  · rcases hd : dropLit (str "COM") s with _ | r <;> rw [hd] at h3
    · cases h3
    · rcases r with _ | ⟨d, ds⟩
      · cases h3
      · rcases Bool.and_eq_true_iff.mp h3 with ⟨hdig, hds⟩
        rw [dropLit_append _ _ _ hd, hasSep_append]
        have hdd : isSepChar d = false := by
          rcases Bool.and_eq_true_iff.mp hdig with ⟨hd1, hd2⟩
          cases hs2 : isSepChar d
          · rfl
          · rw [isSepChar] at hs2
            rcases Bool.or_eq_true_iff.mp hs2 with h4 | h4
            · rcases Bool.or_eq_true_iff.mp h4 with h5 | h5 <;>
                (simp only [decide_eq_true_eq] at h5; subst h5; revert hd1 hd2; decide)
            · simp only [decide_eq_true_eq] at h4; subst h4; revert hd1 hd2; decide
        have : hasSep (d :: ds) = false := by
          rw [hasSep, List.any_cons, hdd, Bool.false_or]
          exact no_sep_of_all sep_not_digit ds hds
        rw [this]
        decide
  · rcases hd : dropLit (str "/dev/ttyACM") s with _ | ds <;> rw [hd] at h3
    · cases h3
    · rw [dropLit_append _ _ _ hd, hasSep_append,
        no_sep_of_all sep_not_digit ds (Bool.and_eq_true_iff.mp h3).2]
      decide
  · rcases hd : dropLit (str "/dev/ttyUSB") s with _ | ds <;> rw [hd] at h2
    · cases h2
    · rw [dropLit_append _ _ _ hd, hasSep_append,
        no_sep_of_all sep_not_digit ds (Bool.and_eq_true_iff.mp h2).2]
      decide
  · rcases hd : dropLit (str "/dev/tty.usbmodem") s with _ | ws <;> rw [hd] at h1
    · cases h1
    · rw [dropLit_append _ _ _ hd, hasSep_append,
        no_sep_of_all sep_not_word ws (Bool.and_eq_true_iff.mp h1).2]
      decide

/-- C7: before any spawn attempt both execution paths reject, with a typed
`CommandFailed` error, every port not matching the documented serial-port
shapes — in particular every port containing `;`, newline or carriage
return, since no matching port contains one — and every command containing
`;`, newline or carriage return; and the port pattern accepts all the
documented shapes (`COM<n>` with a non-zero leading digit, `/dev/ttyACM` or
`/dev/ttyUSB` with a 1–2 digit index, `/dev/tty.usbmodem<suffix>`). -/
theorem port_and_command_validation :
    (∀ port cmd : Str, portMatches port = false →
      execute_pm3_guard port cmd =
        .error (.CommandFailed (str "Invalid port: " ++ port))
      ∧ run_command_streaming_guard port cmd =
        .error (.CommandFailed (str "Invalid port: " ++ port)))
    ∧ (∀ port cmd : Str, hasSep cmd = true →
      (∃ msg, execute_pm3_guard port cmd = .error (.CommandFailed msg))
      ∧ ∃ msg, run_command_streaming_guard port cmd =
        .error (.CommandFailed msg))
    ∧ (∀ port : Str, hasSep port = true → portMatches port = false)
    ∧ (∀ d ds, ('1' ≤ d && d ≤ '9') = true → ds.all Char.isDigit = true →
      portMatches (str "COM" ++ d :: ds) = true)
    ∧ (∀ ds, 1 ≤ ds.length → ds.length ≤ 2 → ds.all Char.isDigit = true →
      portMatches (str "/dev/ttyACM" ++ ds) = true
      ∧ portMatches (str "/dev/ttyUSB" ++ ds) = true)
    ∧ (∀ ws, ws ≠ [] → ws.all isWordChar = true →
      portMatches (str "/dev/tty.usbmodem" ++ ws) = true) := by
  refine ⟨?_, ?_, ?_, ?_, ?_, ?_⟩
  · intro port cmd h
    constructor <;> simp [execute_pm3_guard, run_command_streaming_guard, h]
  · intro port cmd h
    cases hp : portMatches port
    · exact ⟨⟨str "Invalid port: " ++ port, by simp [execute_pm3_guard, hp]⟩,
        ⟨str "Invalid port: " ++ port,
          by simp [run_command_streaming_guard, hp]⟩⟩
    · exact ⟨⟨str "Invalid characters in command",
          by simp [execute_pm3_guard, hp, h]⟩,
        ⟨str "Invalid characters in command",
          by simp [run_command_streaming_guard, hp, h]⟩⟩
  · intro port h
    cases hp : portMatches port
    · rfl
    · rw [portMatches_no_sep port hp] at h
      cases h
  · intro d ds hd hds
    rw [portMatches, dropLit_self]
    simp [hd, hds]
  · intro ds h1 h2 hds
    constructor <;>
      · rw [portMatches, dropLit_self]
        first
          | (rw [show dropLit (str "COM") (str "/dev/ttyACM" ++ ds) = none
              from rfl])
          | (rw [show dropLit (str "COM") (str "/dev/ttyUSB" ++ ds) = none
              from rfl])
        simp [h1, h2, hds]
  · intro ws h1 h2
    rw [portMatches]
    rw [show dropLit (str "COM") (str "/dev/tty.usbmodem" ++ ws) = none
      from rfl]
    rw [show dropLit (str "/dev/ttyACM") (str "/dev/tty.usbmodem" ++ ws) = none
      from rfl]
    rw [show dropLit (str "/dev/ttyUSB") (str "/dev/tty.usbmodem" ++ ws) = none
      from rfl]
    rw [dropLit_self]
    simp [h1, h2]

/-- Witness for C7 on concrete ports and commands. -/
theorem port_and_command_validation_witness :
    execute_pm3_guard (str "COM3;") (str "lf search") =
      .error (.CommandFailed (str "Invalid port: " ++ str "COM3;"))
    ∧ (∃ msg, execute_pm3_guard (str "COM3") (str "lf search; lf t55xx wipe") =
      .error (.CommandFailed msg))
    ∧ portMatches (str "COM" ++ '3' :: []) = true
    ∧ portMatches (str "/dev/ttyACM" ++ str "0") = true
    ∧ portMatches (str "/dev/tty.usbmodem" ++ str "iceman1") = true := by
  refine ⟨(port_and_command_validation.1 _ _ (by decide)).1,
    (port_and_command_validation.2.1 _ _ (by decide)).1,
    port_and_command_validation.2.2.2.1 '3' [] (by decide) (by decide),
    (port_and_command_validation.2.2.2.2.1 (str "0") (by decide) (by decide)
      (by decide)).1,
    port_and_command_validation.2.2.2.2.2 (str "iceman1") (by decide)
      (by decide)⟩

/-! ## Output parser (src-tauri/src/pm3/output_parser.rs) -/

/-- ASCII whitespace for the `\s` class and for `str::trim` (the sources use
Unicode whitespace; the ASCII subset agrees on every string in scope). -/
def isRegexSpace (c : Char) : Bool :=
  c = ' ' || c = '\t' || c = '\n' || c = '\x0b' || c = '\x0c' || c = '\r'

/-- Does `s` start with the literal `pat`? -/
def listStarts : Str → Str → Bool
  | [], _ => true
  | _ :: _, [] => false
  | p :: ps, c :: cs => p = c && listStarts ps cs

/-- `str::contains` of a literal pattern. -/
def containsSub (s pat : Str) : Bool :=
  match s with
  | [] => listStarts pat []
  | _ :: rest => listStarts pat s || containsSub rest pat

/-- Case-insensitive variant of `dropLit`; the pattern is given in lower
case, as the `(?i)` literals of the source regexes. -/
def dropLitCI : Str → Str → Option Str
  | [], l => some l
  | _ :: _, [] => none
  | p :: ps, c :: cs => if c.toLower = p then dropLitCI ps cs else none

/-- Leftmost-match scan of `Regex::captures`/`is_match`: try the
at-this-position matcher at every position, left to right. -/
def scanFirst {α : Type} (f : Str → Option α) : Str → Option α
  | [] => f []
  | c :: rest =>
    match f (c :: rest) with
    | some r => some r
    | none => scanFirst f rest

/-- `\s+`: at least one whitespace character, then the (forced) maximal
run — every continuation in the source patterns starts with a non-space. -/
def dropSpaces1 : Str → Option Str
  | [] => none
  | c :: rest =>
    if isRegexSpace c then some (rest.dropWhile isRegexSpace) else none

/-- `(\d+)`: capture a maximal non-empty digit run (the continuations in the
source patterns all start with a non-digit, so the greedy run is forced). -/
def takeDigits1 (l : Str) : Option (Str × Str) :=
  let ds := l.takeWhile Char.isDigit
  if ds.isEmpty then none else some (ds, l.drop ds.length)

/-- `EM4100_ID_RE` matched at one position:
`EM 410x ID\s*[\-:]?\s*([0-9A-Fa-f]{10})` (case sensitive; the optional
`[-:]` and the greedy `\s*` runs are deterministic because the character
classes are disjoint). -/
def em4100CaptureAt (l : Str) : Option Str :=
  (dropLit (str "EM 410x ID") l).bind fun r1 =>
    let r2 := r1.dropWhile isRegexSpace
    let r3 := match r2 with
      | c :: rest => if c = '-' || c = ':' then rest else r2
      | [] => r2
    let r4 := r3.dropWhile isRegexSpace
    let uid := r4.take 10
    if uid.length = 10 && uid.all isHexChar then some uid else none

/-- `EM4100_ID_RE.captures`: leftmost match, first capture group. -/
def em4100Capture : Str → Option Str := scanFirst em4100CaptureAt

/-- The EM4100 branch of `parse_lf_search` (output_parser.rs): the
`contains` test and, on a regex match, the uppercased uid packed into a
`CardData`; `none` falls through to the rest of the dispatch chain. -/
def em4100Branch (clean : Str) : Option (CardType × CardData) :=
  if containsSub clean (str "EM410x") || containsSub clean (str "EM 410x") then
    match em4100Capture clean with
    | some u =>
      let uid := u.map Char.toUpper
      some (.EM4100, ⟨uid, uid, [(str "type", str "EM4100"), (str "id", uid)]⟩)
    | none => none
  else none

/-- `parse_lf_search` from output_parser.rs, embedded up to and including
its first protocol branch: ANSI stripping, the no-card early return, and
the EM4100 branch.  The remainder of the dispatch chain (HID Prox, Indala,
… down to the valid-tag fallback) is abstracted as `rest`, which receives
the stripped text exactly as in the source; the claims settled here hold
for every value of `rest`. -/
def parse_lf_search_with (rest : Str → Option (CardType × CardData))
    (output : Str) : Option (CardType × CardData) :=
  let clean := strip_ansi output
  if containsSub clean (str "No known 125/134 kHz tags found") then none
  else
    match em4100Branch clean with
    | some r => some r
    | none => rest clean

/-- C8: decoding `[+] EM 410x ID 0F00112233` yields card type `EM4100` and a
`CardData` whose uid is `0F00112233` — independently of the protocol
branches after EM4100 in the dispatch chain. -/
theorem parse_lf_search_em4100_scenario
    (rest : Str → Option (CardType × CardData)) :
    parse_lf_search_with rest (str "[+] EM 410x ID 0F00112233") =
      some (.EM4100, ⟨str "0F00112233", str "0F00112233",
        [(str "type", str "EM4100"), (str "id", str "0F00112233")]⟩) := rfl

/-- `str::trim` (ASCII whitespace, see `isRegexSpace`). -/
def rustTrim (s : Str) : Str :=
  ((s.dropWhile isRegexSpace).reverse.dropWhile isRegexSpace).reverse

/-- `AUTOPWN_FAIL_RE` at one position:
`(?i)all\s+key\s+recovery\s+attempts?\s+failed`; the optional `s` is tried
greedily first, as the engine does. -/
def autopwnFailAt (l : Str) : Option Str :=
  (dropLitCI (str "all") l).bind dropSpaces1 |>.bind (dropLitCI (str "key"))
    |>.bind dropSpaces1 |>.bind (dropLitCI (str "recovery"))
    |>.bind dropSpaces1 |>.bind (dropLitCI (str "attempt")) |>.bind fun r =>
      let withS := match r with
        | c :: rest =>
          if c.toLower = 's' then
            (dropSpaces1 rest).bind (dropLitCI (str "failed"))
          else none
        | [] => none
      match withS with
      | some r2 => some r2
      | none => (dropSpaces1 r).bind (dropLitCI (str "failed"))

/-- `AUTOPWN_FAIL_RE.is_match`. -/
def autopwnFailMatch (l : Str) : Bool := (scanFirst autopwnFailAt l).isSome

/-- `AUTOPWN_TIME_RE` at one position:
`(?i)autopwn\s+execution\s+time\s*:\s*(\d+)\s*seconds?`, returning the
captured digit run (the trailing optional `s` cannot affect the match). -/
def autopwnTimeAt (l : Str) : Option Str :=
  (dropLitCI (str "autopwn") l).bind dropSpaces1
    |>.bind (dropLitCI (str "execution")) |>.bind dropSpaces1
    |>.bind (dropLitCI (str "time")) |>.bind fun r =>
      (dropLit (str ":") (r.dropWhile isRegexSpace)).bind fun r3 =>
        (takeDigits1 (r3.dropWhile isRegexSpace)).bind fun p =>
          (dropLitCI (str "second") (p.2.dropWhile isRegexSpace)).map
            fun _ => p.1

/-- The `AUTOPWN_TIME_RE` capture with the source's
`caps[1].parse().unwrap_or(0)`. -/
def autopwnTime (l : Str) : Option Nat :=
  (scanFirst autopwnTimeAt l).map fun ds => (parseU32 ds).getD 0

/-- `AUTOPWN_DUMP_OK_RE` at one position:
`(?i)Succeeded\s+in\s+dumping\s+all\s+blocks`. -/
def autopwnDumpOkAt (l : Str) : Option Str :=
  (dropLitCI (str "succeeded") l).bind dropSpaces1
    |>.bind (dropLitCI (str "in")) |>.bind dropSpaces1
    |>.bind (dropLitCI (str "dumping")) |>.bind dropSpaces1
    |>.bind (dropLitCI (str "all")) |>.bind dropSpaces1
    |>.bind (dropLitCI (str "blocks"))

/-- `AUTOPWN_DUMP_OK_RE.is_match`. -/
def autopwnDumpOkMatch (l : Str) : Bool := (scanFirst autopwnDumpOkAt l).isSome

/-- `AUTOPWN_DUMP_PARTIAL_RE` at one position:
`(?i)Dump\s+file\s+is\s+PARTIAL`. -/
def autopwnDumpPartialAt (l : Str) : Option Str :=
  (dropLitCI (str "dump") l).bind dropSpaces1
    |>.bind (dropLitCI (str "file")) |>.bind dropSpaces1
    |>.bind (dropLitCI (str "is")) |>.bind dropSpaces1
    |>.bind (dropLitCI (str "partial"))

/-- `AUTOPWN_DUMP_PARTIAL_RE.is_match`. -/
def autopwnDumpPartialMatch (l : Str) : Bool :=
  (scanFirst autopwnDumpPartialAt l).isSome

/-- `AUTOPWN_KEY_FOUND_RE` at one position:
`(?i)found\s+valid\s+key\s*\[\s*([0-9A-Fa-f]{12})\s*\]`. -/
def autopwnKeyFoundAt (l : Str) : Option Str :=
  (dropLitCI (str "found") l).bind dropSpaces1
    |>.bind (dropLitCI (str "valid")) |>.bind dropSpaces1
    |>.bind (dropLitCI (str "key")) |>.bind fun r =>
      (dropLit (str "[") (r.dropWhile isRegexSpace)).bind fun r3 =>
        let r4 := r3.dropWhile isRegexSpace
        let key := r4.take 12
        if key.length = 12 && key.all isHexChar then
          (dropLit (str "]") ((r4.drop 12).dropWhile isRegexSpace)).map
            fun _ => key
        else none

/-- `AUTOPWN_KEYS_RE` at one position (case sensitive):
`found\s+(\d+)\s*/\s*(\d+)\s+keys`, returning both captures. -/
def autopwnKeysAt (l : Str) : Option (Str × Str) :=
  (dropLit (str "found") l).bind dropSpaces1 |>.bind takeDigits1
    |>.bind fun p =>
      (dropLit (str "/") (p.2.dropWhile isRegexSpace)).bind fun r3 =>
        (takeDigits1 (r3.dropWhile isRegexSpace)).bind fun q =>
          (dropSpaces1 q.2).bind fun r6 =>
            (dropLit (str "keys") r6).map fun _ => (p.1, q.1)

/-- The `AUTOPWN_KEYS_RE` captures with the source's
`parse().unwrap_or(0)` on each group. -/
def autopwnKeys (l : Str) : Option (Nat × Nat) :=
  (scanFirst autopwnKeysAt l).map fun p =>
    ((parseU32 p.1).getD 0, (parseU32 p.2).getD 0)

/-- The backquote character, the only member of the `[\x60]?` class of
`AUTOPWN_DUMP_SAVED_RE`. -/
def backquote : Char := Char.ofNat 96

/-- The `[^\s\x60]` class of `AUTOPWN_DUMP_SAVED_RE`. -/
def isFnameChar (c : Char) : Bool := !isRegexSpace c && !(c = backquote)

/-- `(?:bin|json|eml)` matched case-insensitively at the head, returning the
extension length; the three alternatives start with distinct letters, so
first-alternative priority never matters. -/
def dumpExtAt (l : Str) : Option Nat :=
  match dropLitCI (str "bin") l with
  | some _ => some 3
  | none =>
    match dropLitCI (str "json") l with
    | some _ => some 4
    | none =>
      match dropLitCI (str "eml") l with
      | some _ => some 3
      | none => none

/-- Backtracking search for the capture `([^\s\x60]+\.(?:bin|json|eml))`
inside the maximal filename-character run `r`: the greedy `+` tries the
longest prefix first, so the dot index descends from `r.length - 1`. -/
def dumpFileSearch (r : Str) : Nat → Option Str
  | 0 => none
  | j + 1 =>
    match (dropLit (str ".") (r.drop (j + 1))).bind dumpExtAt with
    | some extLen => some (r.take (j + 1 + 1 + extLen))
    | none => dumpFileSearch r j

/-- The capture `([^\s\x60]+\.(?:bin|json|eml))` matched at one position. -/
def dumpFileCaptureAt (l : Str) : Option Str :=
  let r := l.takeWhile isFnameChar
  if r.isEmpty then none else dumpFileSearch r (r.length - 1)

/-- `file\s+[\x60]?` then the filename capture (the optional backquote is
forced: the capture class excludes it). -/
def dumpAfterFile (rr : Str) : Option Str :=
  (dropLitCI (str "file") rr).bind dropSpaces1 |>.bind fun r3 =>
    dumpFileCaptureAt (match r3 with
      | c :: rest2 => if c = backquote then rest2 else r3
      | [] => r3)

/-- `file\s+` (no optional backquote, the second alternative) then the
filename capture. -/
def dumpAfterFilePlain (rr : Str) : Option Str :=
  (dropLitCI (str "file") rr).bind dropSpaces1 |>.bind dumpFileCaptureAt

/-- The alternation `(?:to\s+(?:binary\s+)?file\s+[\x60]?|file\s+)` of
`AUTOPWN_DUMP_SAVED_RE` followed by the filename capture, in engine
priority order: `to … binary … file`, then `to … file`, then plain
`file`. -/
def dumpSavedTailAt (aq : Str) : Option Str :=
  match (dropLitCI (str "to") aq).bind dropSpaces1 with
  | some r =>
    match (match (dropLitCI (str "binary") r).bind dropSpaces1 with
      | some rb => dumpAfterFile rb
      | none => none) with
    | some cap => some cap
    | none =>
      match dumpAfterFile r with
      | some cap => some cap
      | none => dumpAfterFilePlain aq
  | none => dumpAfterFilePlain aq

/-- The lazy `.*?` of `AUTOPWN_DUMP_SAVED_RE`: try the alternation at each
position left to right, stopping at a newline (which `.` cannot cross). -/
def dumpSavedScanFwd : Str → Option Str
  | [] => none
  | c :: rest =>
    match dumpSavedTailAt (c :: rest) with
    | some cap => some cap
    | none => if c = '\n' then none else dumpSavedScanFwd rest

/-- `AUTOPWN_DUMP_SAVED_RE` at one position:
`(?i)saved\s+.*?(?:to\s+(?:binary\s+)?file\s+[\x60]?|file\s+)` then the
filename capture.  The greedy `\s+` is tried with the maximal run first;
shorter runs only re-offer positions inside the run, where the alternation
(starting with `t`/`f`) cannot match, so scanning forward from the end of
the run is exhaustive. -/
def autopwnDumpSavedAt (l : Str) : Option Str :=
  (dropLitCI (str "saved") l).bind fun r =>
    match r with
    | c :: _ =>
      if isRegexSpace c then dumpSavedScanFwd (r.dropWhile isRegexSpace)
      else none
    | [] => none

/-- `parse_autopwn_line` from output_parser.rs: strip ANSI, trim, then try
the autopwn markers in source order. -/
def parse_autopwn_line (line : Str) : Option AutopwnEvent :=
  let trimmed := rustTrim (strip_ansi line)
  if trimmed.isEmpty then none
  else if autopwnFailMatch trimmed then
    some (.Failed (str "All key recovery attempts failed"))
  else
    match autopwnTime trimmed with
    | some secs => some (.Finished secs)
    | none =>
      if autopwnDumpOkMatch trimmed then some (.DumpComplete [])
      else if autopwnDumpPartialMatch trimmed then some (.DumpPartial [])
      else
        match scanFirst autopwnDumpSavedAt trimmed with
        | some path => some (.DumpComplete path)
        | none =>
          match scanFirst autopwnKeyFoundAt trimmed with
          | some key => some (.KeyFound (key.map Char.toUpper))
          | none =>
            match autopwnKeys trimmed with
            | some p => some (.DictionaryProgress p.1 p.2)
            | none =>
              if containsSub trimmed (str "Darkside attack")
                  || containsSub trimmed (str "darkside") then
                some .DarksideStarted
              else if containsSub trimmed (str "Hardnested attack")
                  || containsSub trimmed (str "hardnested") then
                some .HardnestedStarted
              else if containsSub trimmed (str "Staticnested")
                  || containsSub trimmed (str "staticnested")
                  || containsSub trimmed (str "static nonce") then
                some .StaticnestedStarted
              else if (containsSub trimmed (str "Nested attack")
                    || containsSub trimmed (str "nested authentication"))
                  && !containsSub trimmed (str "Hardnested")
                  && !containsSub trimmed (str "hardnested")
                  && !containsSub trimmed (str "Staticnested")
                  && !containsSub trimmed (str "staticnested") then
                some .NestedStarted
              else none

/-- Does each character of `s`, lowered with `Char.toLower`, start with the
(lower-case) literal `pat`?  The character test is the one `dropLitCI`
performs, so this is the case-insensitive `listStarts`. -/
def listStartsCI : Str → Str → Bool
  | [], _ => true
  | _ :: _, [] => false
  | p :: ps, c :: cs => c.toLower = p && listStartsCI ps cs

/-- Case-insensitive containment of the (lower-case) literal `pat` in `s`. -/
def containsSubCI (s pat : Str) : Bool :=
  match s with
  | [] => listStartsCI pat []
  | _ :: rest => listStartsCI pat s || containsSubCI rest pat

theorem listStartsCI_map (pat : Str) :
    ∀ s, listStartsCI pat s = listStarts pat (s.map Char.toLower) := by
  induction pat with
  | nil => intro s; cases s <;> rfl
  | cons p ps ih =>
    intro s
    cases s with
    | nil => rfl
    | cons c cs =>
      rw [List.map_cons, listStartsCI, listStarts, ih]
      congr 1
      exact decide_eq_decide.mpr eq_comm

theorem containsSubCI_map (pat : Str) :
    ∀ s, containsSubCI s pat = containsSub (s.map Char.toLower) pat := by
  intro s
  induction s with
  | nil =>
    rw [containsSubCI, List.map_nil, containsSub, listStartsCI_map,
      List.map_nil]
  | cons c cs ih =>
    rw [containsSubCI, List.map_cons, containsSub, ih, listStartsCI_map,
      List.map_cons]

theorem toLower_eq_space {c : Char} (h : c.toLower = ' ') : c = ' ' := by
  simp only [Char.toLower] at h
  split at h
  · exfalso
    rename_i hn
    obtain ⟨h1, h2⟩ := hn
    revert h
    generalize c.toNat = n at h1 h2
    interval_cases n <;> decide
  · exact h

theorem toLower_lower_not_space {c p : Char} (h : c.toLower = p)
    (h1 : 97 ≤ p.toNat) (h2 : p.toNat ≤ 122) : isRegexSpace c = false := by
  simp only [Char.toLower] at h
  split at h
  · rename_i hn
    obtain ⟨hn1, hn2⟩ := hn
    clear h h1 h2
    rw [show c = Char.ofNat c.toNat from (Char.ofNat_toNat c).symm]
    generalize c.toNat = n at hn1 hn2 ⊢
    interval_cases n <;> decide
  · rw [h]
    rw [show p = Char.ofNat p.toNat from (Char.ofNat_toNat p).symm]
    generalize p.toNat = n at h1 h2 ⊢
    interval_cases n <;> decide

theorem dropLitCI_of_listStartsCI :
    ∀ (w s : Str), listStartsCI w s = true →
    dropLitCI w s = some (s.drop w.length) := by
  intro w
  induction w with
  | nil => intro s _; rfl
  | cons p ps ih =>
    intro s h
    cases s with
    | nil => cases h
    | cons c cs =>
      rw [listStartsCI] at h
      rcases Bool.and_eq_true_iff.mp h with ⟨h1, h2⟩
      simp only [decide_eq_true_eq] at h1
      rw [dropLitCI, if_pos h1, ih cs h2]
      rfl

theorem listStartsCI_append_split :
    ∀ (p1 p2 s : Str), listStartsCI (p1 ++ p2) s = true →
    listStartsCI p1 s = true ∧ listStartsCI p2 (s.drop p1.length) = true := by
  intro p1
  induction p1 with
  | nil => intro p2 s h; exact ⟨rfl, h⟩
  | cons p ps ih =>
    intro p2 s h
    cases s with
    | nil => rw [List.cons_append] at h; cases h
    | cons c cs =>
      rw [List.cons_append, listStartsCI] at h
      rcases Bool.and_eq_true_iff.mp h with ⟨h1, h2⟩
      obtain ⟨ha, hb⟩ := ih p2 cs h2
      refine ⟨?_, hb⟩
      rw [listStartsCI, h1, ha]
      rfl

theorem dropSpaces1_of_CI (p : Char) (ps s : Str)
    (h : listStartsCI (' ' :: p :: ps) s = true)
    (h1 : 97 ≤ p.toNat) (h2 : p.toNat ≤ 122) :
    dropSpaces1 s = some (s.drop 1) ∧
    listStartsCI (p :: ps) (s.drop 1) = true := by
  cases s with
  | nil => cases h
  | cons c s2 =>
    rw [listStartsCI] at h
    rcases Bool.and_eq_true_iff.mp h with ⟨hc, hrest⟩
    simp only [decide_eq_true_eq] at hc
    have hcsp : c = ' ' := toLower_eq_space hc
    subst hcsp
    cases s2 with
    | nil => cases hrest
    | cons c2 s3 =>
      rw [listStartsCI] at hrest
      rcases Bool.and_eq_true_iff.mp hrest with ⟨hc2, hrest2⟩
      simp only [decide_eq_true_eq] at hc2
      have hns : isRegexSpace c2 = false := toLower_lower_not_space hc2 h1 h2
      refine ⟨?_, ?_⟩
      · rw [dropSpaces1, if_pos (by decide)]
        simp [List.dropWhile, hns]
      · simp [listStartsCI, hc2, hrest2]

theorem dumpOk_of_listStartsCI (s : Str)
    (h : listStartsCI (str "succeeded in dumping all blocks") s = true) :
    (autopwnDumpOkAt s).isSome = true := by
  obtain ⟨ha1, hb1⟩ := listStartsCI_append_split (str "succeeded")
    (' ' :: str "in dumping all blocks") s h
  obtain ⟨hs1, hc1⟩ := dropSpaces1_of_CI 'i' (str "n dumping all blocks") _
    hb1 (by decide) (by decide)
  obtain ⟨ha2, hb2⟩ := listStartsCI_append_split (str "in")
    (' ' :: str "dumping all blocks") _ hc1
  obtain ⟨hs2, hc2⟩ := dropSpaces1_of_CI 'd' (str "umping all blocks") _
    hb2 (by decide) (by decide)
  obtain ⟨ha3, hb3⟩ := listStartsCI_append_split (str "dumping")
    (' ' :: str "all blocks") _ hc2
  obtain ⟨hs3, hc3⟩ := dropSpaces1_of_CI 'a' (str "ll blocks") _
    hb3 (by decide) (by decide)
  obtain ⟨ha4, hb4⟩ := listStartsCI_append_split (str "all")
    (' ' :: str "blocks") _ hc3
  obtain ⟨hs4, hc4⟩ := dropSpaces1_of_CI 'b' (str "locks") _
    hb4 (by decide) (by decide)
  have ha5 := dropLitCI_of_listStartsCI (str "blocks") _ hc4
  have hd1 := dropLitCI_of_listStartsCI (str "succeeded") _ ha1
  have hd2 := dropLitCI_of_listStartsCI (str "in") _ ha2
  have hd3 := dropLitCI_of_listStartsCI (str "dumping") _ ha3
  have hd4 := dropLitCI_of_listStartsCI (str "all") _ ha4
  simp only [List.drop_drop] at hs1 hd2 hs2 hd3 hs3 hd4 hs4 ha5
  simp [autopwnDumpOkAt, hd1, hs1, hd2, hs2, hd3, hs3, hd4, hs4, ha5]

theorem scanFirst_isSome_CI {α : Type} (f : Str → Option α) (pat : Str) :
    ∀ s, (∀ t, listStartsCI pat t = true → (f t).isSome = true) →
    containsSubCI s pat = true → (scanFirst f s).isSome = true := by
  intro s
  induction s with
  | nil =>
    intro hf h
    rw [containsSubCI] at h
    have h2 := hf [] h
    simpa [scanFirst] using h2
  | cons c rest ih =>
    intro hf h
    rw [containsSubCI] at h
    rcases hf2 : f (c :: rest) with _ | v
    · rcases Bool.or_eq_true_iff.mp h with h1 | h1
      · have h2 := hf (c :: rest) h1
        rw [hf2] at h2
        cases h2
      · have h2 := ih hf h1
        simp [scanFirst, hf2, h2]
    · simp [scanFirst, hf2]

theorem autopwnDumpOkMatch_of_containsCI (s : Str)
    (h : containsSubCI s (str "succeeded in dumping all blocks") = true) :
    autopwnDumpOkMatch s = true := by
  rw [autopwnDumpOkMatch]
  exact scanFirst_isSome_CI autopwnDumpOkAt
    (str "succeeded in dumping all blocks") s dumpOk_of_listStartsCI h

/-- C9 counterexample: a single line that contains `found 12/32 keys` but
also matches the earlier-checked failure marker is decoded as `Failed`, not
as a `DictionaryProgress` event. -/
theorem parse_autopwn_line_keys_counterexample :
    parse_autopwn_line
      (str "all key recovery attempts failed - found 12/32 keys") =
      some (.Failed (str "All key recovery attempts failed"))
    ∧ containsSub (str "all key recovery attempts failed - found 12/32 keys")
      (str "found 12/32 keys") = true := by
  exact ⟨by decide, by decide⟩

/-- C9 (amended): on a single line matching none of the earlier-priority
autopwn markers (failure, execution time, dump-ok, dump-partial,
dump-saved, key-found) whose leftmost `found <m>/<n> keys` match reads
`12`/`32`, the streaming decoder returns `DictionaryProgress` with
`found = 12`, `total = 32`; and on any line containing
`succeeded in dumping all blocks` case-insensitively that matches neither
the failure nor the execution-time marker, it returns a `DumpComplete`
event. -/
theorem parse_autopwn_line_progress_amended (line : Str) :
    (rustTrim (strip_ansi line) ≠ [] →
      autopwnFailMatch (rustTrim (strip_ansi line)) = false →
      autopwnTime (rustTrim (strip_ansi line)) = none →
      autopwnDumpOkMatch (rustTrim (strip_ansi line)) = false →
      autopwnDumpPartialMatch (rustTrim (strip_ansi line)) = false →
      scanFirst autopwnDumpSavedAt (rustTrim (strip_ansi line)) = none →
      scanFirst autopwnKeyFoundAt (rustTrim (strip_ansi line)) = none →
      autopwnKeys (rustTrim (strip_ansi line)) = some (12, 32) →
      parse_autopwn_line line = some (.DictionaryProgress 12 32))
    ∧ (autopwnFailMatch (rustTrim (strip_ansi line)) = false →
      autopwnTime (rustTrim (strip_ansi line)) = none →
      containsSubCI (rustTrim (strip_ansi line))
        (str "succeeded in dumping all blocks") = true →
      parse_autopwn_line line = some (.DumpComplete [])) := by
  constructor
  · intro h0 h1 h2 h3 h4 h5 h6 h7
    have h0e : (rustTrim (strip_ansi line)).isEmpty = false := by
      rcases hh : rustTrim (strip_ansi line) with _ | ⟨c, r⟩
      · exact absurd hh h0
      · rfl
    simp only [parse_autopwn_line, h0e, h1, h2, h3, h4, h5, h6, h7]
    simp
  · intro h1 h2 h3
    have h0e : (rustTrim (strip_ansi line)).isEmpty = false := by
      rcases hh : rustTrim (strip_ansi line) with _ | ⟨c, r⟩
      · rw [hh] at h3
        exact absurd h3 (by decide)
      · rfl
    have hok : autopwnDumpOkMatch (rustTrim (strip_ansi line)) = true :=
      autopwnDumpOkMatch_of_containsCI _ h3
    simp only [parse_autopwn_line, h0e, h1, h2, hok]
    simp

/-- Witness for the amended C9 on the two scenario lines. -/
theorem parse_autopwn_line_progress_amended_witness :
    parse_autopwn_line (str "[+] found 12/32 keys (D)") =
      some (.DictionaryProgress 12 32)
    ∧ parse_autopwn_line (str "[+] Succeeded in dumping all blocks") =
      some (.DumpComplete []) := by
  constructor
  · exact (parse_autopwn_line_progress_amended _).1 (by decide) (by decide)
      (by decide) (by decide) (by decide) (by decide) (by decide) (by decide)
  · exact (parse_autopwn_line_progress_amended _).2 (by decide) (by decide)
      (by decide)
